import Mathlib

/-!
Shallow embedding of the kops task code under verification:
- upup/pkg/fi/cloudup/gcetasks/projectiambinding.go (ProjectIAMBinding task)
- the AWS AutoscalingGroup task (awstasks package)

Go conventions used throughout the embedding:
- `*T` pointers that are only read through `fi.ValueOf` / `aws.ToString`
  (which map nil to the zero value) are modelled as `Option T`.
- Go slices on fields where the code distinguishes nil from empty
  (`changes.X != nil`) are modelled as `Option (List _)`; `append` on a
  nil slice yields a non-nil slice, modelled by `goAppend`.
- Fallible provider calls are modelled as `Except` values supplied as
  inputs (the SDK client is an injected collaborator).
- A Go nil-pointer dereference (a panic) is modelled as an error result;
  no claim exercises those branches.
-/

namespace Kops

/-- fi.ValueOf for strings: nil maps to the empty string (same as aws.ToString). -/
def valueOf (o : Option String) : String := o.getD ""

/-- fi.ValueOf for int32 values: nil maps to 0. -/
def valueOfInt (o : Option Int) : Int := o.getD 0

/-- fi.ValueOf for bools: nil maps to false. -/
def valueOfBool (o : Option Bool) : Bool := o.getD false

/-- Go append on a possibly-nil slice: the result is always non-nil. -/
def goAppend {α : Type} (s : Option (List α)) (x : α) : Option (List α) :=
  some (s.getD [] ++ [x])

/-- The underlying list of a possibly-nil Go slice (len, range treat nil as empty). -/
def optList {α : Type} (s : Option (List α)) : List α := s.getD []

/-- strings.Contains, on the character lists. -/
def strContains (s sub : String) : Bool := decide (sub.toList <:+: s.toList)

deriving instance DecidableEq for Except

/-! ## GCE: ProjectIAMBinding (projectiambinding.go) -/

/-- gcetasks.ServiceAccount, restricted to the field read here (Email). -/
structure ServiceAccount where
  Email : Option String
deriving DecidableEq, Repr

/-- fi.Lifecycle is an opaque tag; modelled as a string. -/
def Lifecycle := String
deriving instance DecidableEq, Repr for Lifecycle

/-- gcetasks.ProjectIAMBinding task struct. -/
structure ProjectIAMBinding where
  Name : Option String
  Lifecycle : Lifecycle
  Project : Option String
  MemberServiceAccount : Option ServiceAccount
  Role : Option String
deriving DecidableEq, Repr

/-- cloudresourcemanager.Binding: Role, Members, and whether Condition is non-nil. -/
structure Binding where
  Role : String
  Members : List String
  hasCondition : Bool
deriving DecidableEq, Repr

/-- cloudresourcemanager.Policy (only the Bindings field is used). -/
structure CRMPolicy where
  Bindings : List Binding
deriving DecidableEq, Repr

/-- The loop of patchCRMPolicy over policy.Bindings. Returns the changed flag
together with the bindings list after the in-place mutation; an early return
leaves the remaining bindings untouched. -/
def patchCRMBindings (wantMember wantRole : String) : List Binding → Bool × List Binding
  | [] => (true, [⟨wantRole, [wantMember], false⟩])
  | b :: rest =>
    if b.hasCondition then
      let r := patchCRMBindings wantMember wantRole rest
      (r.1, b :: r.2)
    else if b.Role ≠ wantRole then
      let r := patchCRMBindings wantMember wantRole rest
      (r.1, b :: r.2)
    else if wantMember ∈ b.Members then
      (false, b :: rest)
    else
      (true, { b with Members := b.Members ++ [wantMember] } :: rest)

/-- patchCRMPolicy(policy, wantMember, wantRole): returns the changed flag and
the policy after mutation (the Go code mutates the policy in place). -/
def patchCRMPolicy (policy : CRMPolicy) (wantMember wantRole : String) : Bool × CRMPolicy :=
  let r := patchCRMBindings wantMember wantRole policy.Bindings
  (r.1, ⟨r.2⟩)

/-- The member string built by Find and RenderGCE from the task. -/
def ProjectIAMBinding.memberString (sa : ServiceAccount) : String :=
  "serviceAccount:" ++ valueOf sa.Email

/-- Result of the GetIamPolicy provider call, an input to Find and RenderGCE. -/
inductive GetPolicyResult where
  | notFound
  | otherError (msg : String)
  | ok (policy : CRMPolicy)
deriving DecidableEq, Repr

/-- ProjectIAMBinding.Find. The provider response is an input. A nil
MemberServiceAccount would be a Go nil dereference, modelled as an error. -/
def ProjectIAMBinding.Find (e : ProjectIAMBinding) (resp : GetPolicyResult) :
    Except String (Option ProjectIAMBinding) :=
  match e.MemberServiceAccount with
  | none => .error "nil pointer dereference"
  | some sa =>
    let member := ProjectIAMBinding.memberString sa
    let role := valueOf e.Role
    match resp with
    | .notFound => .ok none
    | .otherError msg =>
        .error ("error checking IAM for project " ++ valueOf e.Project ++ ": " ++ msg)
    | .ok policy =>
      let changed := (patchCRMPolicy policy member role).1
      if changed then
        .ok none
      else
        .ok (some { Project := e.Project
                    MemberServiceAccount := e.MemberServiceAccount
                    Role := e.Role
                    Name := e.Name
                    Lifecycle := e.Lifecycle })

/-- fi.RequiredField errors, and the generic error shape for CheckChanges. -/
inductive CheckError where
  | RequiredField (field : String)
deriving DecidableEq, Repr

/-- ProjectIAMBinding.CheckChanges (the receiver ignores a and changes). -/
def ProjectIAMBinding.CheckChanges (_a : Option ProjectIAMBinding) (e : ProjectIAMBinding)
    (_changes : Option ProjectIAMBinding) : Except CheckError Unit :=
  if valueOf e.Project = "" then
    .error (.RequiredField "Project")
  else
    match e.MemberServiceAccount with
    | none => .error (.RequiredField "MemberServiceAccount")
    | some sa =>
      if valueOf sa.Email = "" then
        .error (.RequiredField "MemberServiceAccount.Email")
      else if valueOf e.Role = "" then
        .error (.RequiredField "Role")
      else
        .ok ()

/-- Trace of one RenderGCE execution. -/
inductive RenderGCEOutcome where
  /-- A nil MemberServiceAccount dereference (Go panic). -/
  | nilDeref
  /-- GetIamPolicy failed; the wrapped error is returned. -/
  | errGetPolicy (msg : String)
  /-- patchCRMPolicy reported no modification: warn and return nil;
  SetIamPolicy is never called. -/
  | warnNoChange
  /-- SetIamPolicy was called with the patched policy; its result is the
  result of the supplied provider call. -/
  | setCalled (policy : CRMPolicy) (result : Except String Unit)
deriving DecidableEq, Repr

/-- ProjectIAMBinding.RenderGCE: re-reads the policy (getPolicy input), patches
it, and calls SetIamPolicy only when the patch modified the policy. -/
def ProjectIAMBinding.RenderGCE (e : ProjectIAMBinding)
    (getPolicy : Except String CRMPolicy) (setResult : Except String Unit) :
    RenderGCEOutcome :=
  match e.MemberServiceAccount with
  | none => .nilDeref
  | some sa =>
    let member := ProjectIAMBinding.memberString sa
    let role := valueOf e.Role
    match getPolicy with
    | .error msg => .errGetPolicy ("error getting IAM policy for project " ++
        valueOf e.Project ++ ": " ++ msg)
    | .ok policy =>
      let r := patchCRMPolicy policy member role
      if r.1 then
        .setCalled r.2 setResult
      else
        .warnNoChange

/-- A condition-free binding for the role contains the member. -/
def CRMPolicy.memberBound (p : CRMPolicy) (member role : String) : Prop :=
  ∃ b ∈ p.Bindings, b.hasCondition = false ∧ b.Role = role ∧ member ∈ b.Members

instance (p : CRMPolicy) (member role : String) : Decidable (p.memberBound member role) := by
  unfold CRMPolicy.memberBound
  infer_instance

/-! ## AWS: AutoscalingGroup task (awstasks package) -/

/-- awstasks.Subnet, restricted to the field used here (ID). -/
structure Subnet where
  ID : Option String
deriving DecidableEq, Repr

/-- awstasks.ClassicLoadBalancer, restricted to the fields used here. -/
structure ClassicLoadBalancer where
  Name : Option String
  LoadBalancerName : Option String
  Shared : Option Bool
deriving DecidableEq, Repr

/-- targetGroupInfo, restricted to the ARN used by the byARN index. -/
structure TargetGroupInfo where
  ARN : String
deriving DecidableEq, Repr

/-- awstasks.TargetGroup, restricted to the fields used here. -/
structure TargetGroup where
  Name : Option String
  ARN : Option String
  info : Option TargetGroupInfo
deriving DecidableEq, Repr

/-- awstasks.LaunchTemplate, restricted to the fields used here. -/
structure LaunchTemplate where
  Name : Option String
  ID : Option String
deriving DecidableEq, Repr

/-- Modelled from the spec: awstasks.InstanceRequirements is a task attribute
(instance-type requirements for the EC2 fleet) whose definition is not part of
this corpus; the AutoscalingGroup code only passes it around and compares it
with nil, so its fields are opaque here. -/
structure InstanceRequirements where
  CPUMin : Option Int
  CPUMax : Option Int
  MemoryMin : Option Int
  MemoryMax : Option Int
deriving DecidableEq, Repr

/-- The deferred deletion task built by Find (deleteAutoscalingTargetGroupAttachment). -/
structure DeleteTGAttachment where
  autoScalingGroupName : String
  targetGroupARN : String
deriving DecidableEq, Repr

/-- buildDeleteAutoscalingTargetGroupAttachment. -/
def buildDeleteAutoscalingTargetGroupAttachment (autoScalingGroupName targetGroupARN : String) :
    DeleteTGAttachment :=
  { autoScalingGroupName := autoScalingGroupName, targetGroupARN := targetGroupARN }

/-- deleteAutoscalingTargetGroupAttachment.Item(). -/
def DeleteTGAttachment.Item (d : DeleteTGAttachment) : String :=
  d.autoScalingGroupName ++ ":" ++ d.targetGroupARN

/-- deleteAutoscalingTargetGroupAttachment.DeferDeletion(). -/
def DeleteTGAttachment.DeferDeletion (_d : DeleteTGAttachment) : Bool := true

/-- deleteAutoscalingTargetGroupAttachment.TaskName(). -/
def DeleteTGAttachment.TaskName (_d : DeleteTGAttachment) : String :=
  "autoscaling-elb-attachment"

/-- awstasks.AutoscalingGroup task struct. Go slice and map fields whose
nil-ness is observed (changes.X != nil) are Option lists; the tag map is an
association list with insert-overwrite semantics. -/
structure AutoscalingGroup where
  Name : Option String
  Lifecycle : Lifecycle
  Granularity : Option String
  InstanceProtection : Option Bool
  LaunchTemplate : Option LaunchTemplate
  LoadBalancers : Option (List ClassicLoadBalancer)
  MaxInstanceLifetime : Option Int
  MaxSize : Option Int
  Metrics : Option (List String)
  MinSize : Option Int
  MixedInstanceOverrides : Option (List String)
  InstanceRequirements : Option InstanceRequirements
  MixedOnDemandAllocationStrategy : Option String
  MixedOnDemandBase : Option Int
  MixedOnDemandAboveBase : Option Int
  MixedSpotAllocationStrategy : Option String
  MixedSpotInstancePools : Option Int
  MixedSpotMaxPrice : Option String
  Subnets : Option (List Subnet)
  SuspendProcesses : Option (List String)
  Tags : Option (List (String × String))
  TargetGroups : Option (List TargetGroup)
  CapacityRebalance : Option Bool
  deletions : List DeleteTGAttachment
deriving DecidableEq, Repr

/-- The zero AutoscalingGroup value (Go struct literal with omitted fields). -/
def emptyASG : AutoscalingGroup :=
  { Name := none, Lifecycle := "", Granularity := none, InstanceProtection := none
    LaunchTemplate := none, LoadBalancers := none, MaxInstanceLifetime := none
    MaxSize := none, Metrics := none, MinSize := none, MixedInstanceOverrides := none
    InstanceRequirements := none, MixedOnDemandAllocationStrategy := none
    MixedOnDemandBase := none, MixedOnDemandAboveBase := none
    MixedSpotAllocationStrategy := none, MixedSpotInstancePools := none
    MixedSpotMaxPrice := none, Subnets := none, SuspendProcesses := none
    Tags := none, TargetGroups := none, CapacityRebalance := none, deletions := [] }

/-- Go map insert: a later insert for the same key overwrites. -/
def mapInsert (m : List (String × String)) (k v : String) : List (String × String) :=
  m.filter (fun p => p.1 ≠ k) ++ [(k, v)]

/-- Go map key lookup. -/
def mapHasKey (m : List (String × String)) (k : String) : Bool :=
  m.any (fun p => p.1 = k)

/-! ### Cloud-side AWS SDK types (autoscalingtypes), restricted to fields read -/

/-- autoscalingtypes.EnabledMetric. -/
structure EnabledMetric where
  Metric : Option String
  Granularity : Option String
deriving DecidableEq, Repr

/-- autoscalingtypes.TagDescription (as found on the group). -/
structure CloudTag where
  Key : Option String
  Value : Option String
deriving DecidableEq, Repr

/-- autoscalingtypes.SuspendedProcess. -/
structure SuspendedProcess where
  ProcessName : Option String
deriving DecidableEq, Repr

/-- autoscalingtypes.LaunchTemplateSpecification. -/
structure CloudLTSpec where
  LaunchTemplateName : Option String
  LaunchTemplateId : Option String
  Version : Option String
deriving DecidableEq, Repr

/-- autoscalingtypes.InstancesDistribution. -/
structure CloudMIPDistribution where
  OnDemandPercentageAboveBaseCapacity : Option Int
  OnDemandAllocationStrategy : Option String
  OnDemandBaseCapacity : Option Int
  SpotAllocationStrategy : Option String
  SpotInstancePools : Option Int
  SpotMaxPrice : Option String
deriving DecidableEq, Repr

/-- autoscalingtypes.LaunchTemplateOverrides as read back from the cloud
(only InstanceType is read in Find). -/
structure CloudLTOverride where
  InstanceType : Option String
deriving DecidableEq, Repr

/-- autoscalingtypes.LaunchTemplate (the mixed-instances-policy one). -/
structure CloudMIPLaunchTemplate where
  LaunchTemplateSpecification : Option CloudLTSpec
  Overrides : List CloudLTOverride
deriving DecidableEq, Repr

/-- autoscalingtypes.MixedInstancesPolicy. -/
structure CloudMIP where
  InstancesDistribution : Option CloudMIPDistribution
  LaunchTemplate : Option CloudMIPLaunchTemplate
deriving DecidableEq, Repr

/-- autoscalingtypes.AutoScalingGroup, restricted to the fields Find reads. -/
structure CloudASG where
  AutoScalingGroupName : Option String
  Status : Option String
  MinSize : Option Int
  MaxSize : Option Int
  MaxInstanceLifetime : Option Int
  LoadBalancerNames : List String
  TargetGroupARNs : List String
  VPCZoneIdentifier : Option String
  EnabledMetrics : List EnabledMetric
  SuspendedProcesses : List SuspendedProcess
  Tags : List CloudTag
  LaunchTemplate : Option CloudLTSpec
  MixedInstancesPolicy : Option CloudMIP
  NewInstancesProtectedFromScaleIn : Option Bool
deriving DecidableEq, Repr

/-- elbtypes.LoadBalancerDescription, restricted to LoadBalancerName. -/
structure ELBDesc where
  LoadBalancerName : Option String
deriving DecidableEq, Repr

/-- The AWS cloud collaborator as seen by Find: the DescribeAutoScalingGroups
response (pages flattened; a page error is the error case), the
FindELBByNameTag lookup, and findInstanceRequirements (defined outside this
corpus, injected as a function of the cloud group). -/
structure AWSCloudEnv where
  describeResult : Except String (List CloudASG)
  findELBByNameTag : String → Except String (Option ELBDesc)
  findInstanceRequirements : CloudASG → Option InstanceRequirements

/-- findAutoscalingGroup(ctx, cloud, name): filters out groups with a non-nil
Status or a name other than the requested one; 0 matches is (nil, nil), 1
match is returned, more than 1 is an error. -/
def findAutoscalingGroup (resp : Except String (List CloudASG)) (name : String) :
    Except String (Option CloudASG) :=
  match resp with
  | .error msg => .error ("error listing AutoScalingGroups: " ++ msg)
  | .ok groups =>
    let found := groups.filter (fun g =>
      g.Status.isNone && (valueOf g.AutoScalingGroupName = name : Bool))
    match found with
    | [] => .ok none
    | [g] => .ok (some g)
    | _ => .error ("found multiple AutoscalingGroups with name: " ++ name)

/-- sort.Strings: ascending string sort. -/
def sortStrings (l : List String) : List String :=
  l.mergeSort (fun a b => decide (a ≤ b))

/-- Modelled from the spec: OrderLoadBalancersByName (defined outside this
corpus) orders load balancer tasks by name; sort.Stable over it is a stable
sort by name. -/
def sortLoadBalancersByName (l : List ClassicLoadBalancer) : List ClassicLoadBalancer :=
  l.mergeSort (fun a b => decide (valueOf a.Name ≤ valueOf b.Name))

/-- Modelled from the spec: OrderTargetGroupsByName (defined outside this
corpus) orders target group tasks by name; sort.Stable over it is a stable
sort by name. -/
def sortTargetGroupsByName (l : List TargetGroup) : List TargetGroup :=
  l.mergeSort (fun a b => decide (valueOf a.Name ≤ valueOf b.Name))

/-- Modelled from the spec: subnetSlicesEqualIgnoreOrder (defined outside this
corpus) holds when the two slices contain the same subnets ignoring order,
comparing subnets by ID. -/
def subnetSlicesEqualIgnoreOrder (l r : List Subnet) : Bool :=
  sortStrings (l.map fun s => valueOf s.ID) = sortStrings (r.map fun s => valueOf s.ID)

/-- The byARN index over the desired target groups (a Go map: a later entry
with the same ARN overwrites an earlier one), applied to one ARN. -/
def lookupByARN (tgs : List TargetGroup) (arn : String) : Option TargetGroup :=
  (tgs.filter fun tg =>
    match tg.info with
    | some i => i.ARN = arn
    | none => false).getLast?

/-- The loop collecting *p.ProcessName over g.SuspendedProcesses; the Go code
dereferences the pointer, so a nil ProcessName is a nil dereference. -/
def suspendedNames : List SuspendedProcess → Except String (List String)
  | [] => .ok []
  | p :: rest =>
    match p.ProcessName with
    | none => .error "nil pointer dereference"
    | some n => (suspendedNames rest).map (n :: ·)

/-- AutoscalingGroup.Find. The provider responses are inputs (env). Returns
the actual snapshot (none when the group is absent) together with the
resulting e.deletions list (the Go code appends to e.deletions in place). -/
def AutoscalingGroup.Find (e : AutoscalingGroup) (env : AWSCloudEnv) :
    Except String (Option AutoscalingGroup × List DeleteTGAttachment) :=
  match findAutoscalingGroup env.describeResult (valueOf e.Name) with
  | .error msg => .error msg
  | .ok none => .ok (none, e.deletions)
  | .ok (some g) =>
    -- actual := &AutoscalingGroup{Name, MaxSize, MinSize, MaxInstanceLifetime};
    -- a nil MaxInstanceLifetime from the API defaults to 0 (same as model)
    let maxLifetime : Option Int :=
      match g.MaxInstanceLifetime with
      | none => some 0
      | some v => some v
    -- actual.LoadBalancers rebuilt from the attached names
    let lbs0 : List ClassicLoadBalancer := g.LoadBalancerNames.map fun lb =>
      { Name := some lb, LoadBalancerName := some lb, Shared := none }
    -- apiLBTask: the last desired LB whose Shared is not true
    let apiLBTask := ((optList e.LoadBalancers).filter
      (fun lb => !(valueOfBool lb.Shared))).getLast?
    -- replace entries matching the API ELB description by the desired task
    let lbStep : Except String (List ClassicLoadBalancer) :=
      match apiLBTask with
      | some t =>
        if lbs0.length > 0 then
          match env.findELBByNameTag (valueOf t.Name) with
          | .error msg => .error msg
          | .ok none => .ok lbs0
          | .ok (some desc) =>
            .ok (lbs0.map fun lb =>
              if valueOf desc.LoadBalancerName = valueOf lb.Name then t else lb)
        else .ok lbs0
      | none => .ok lbs0
    match lbStep with
    | .error msg => .error msg
    | .ok lbs1 =>
      let lbsSorted := sortLoadBalancersByName lbs1
      -- actual.TargetGroups: match attached ARNs against desired tasks; an
      -- unmatched ARN yields a placeholder and a deferred deletion
      let tgResults : List (TargetGroup × Option DeleteTGAttachment) :=
        g.TargetGroupARNs.map fun arn =>
          match lookupByARN (optList e.TargetGroups) arn with
          | some tg => (tg, none)
          | none =>
            ({ Name := none, ARN := some arn, info := none },
             some (buildDeleteAutoscalingTargetGroupAttachment
               (valueOf g.AutoScalingGroupName) arn))
      let tgsSorted := sortTargetGroupsByName (tgResults.map Prod.fst)
      let newDeletions := tgResults.filterMap Prod.snd
      -- actual.Subnets from VPCZoneIdentifier
      let subnets : Option (List Subnet) :=
        match g.VPCZoneIdentifier with
        | none => none
        | some s => some ((s.splitOn ",").map fun x => { ID := some x })
      -- actual.Metrics / actual.Granularity from EnabledMetrics, then sorted
      let metrics0 := g.EnabledMetrics.map fun em => valueOf em.Metric
      let metrics : Option (List String) :=
        if metrics0.isEmpty then none else some (sortStrings metrics0)
      let granularity : Option String :=
        match g.EnabledMetrics.getLast? with
        | none => none
        | some em => em.Granularity
      -- actual.Tags, skipping aws:cloudformation: keys
      let tags : Option (List (String × String)) :=
        if g.Tags.isEmpty then none
        else some (g.Tags.foldl (fun m tag =>
          if (valueOf tag.Key).startsWith "aws:cloudformation:" then m
          else mapInsert m (valueOf tag.Key) (valueOf tag.Value)) [])
      -- actual.LaunchTemplate from the group, possibly overwritten below
      let lt0 : Option Kops.LaunchTemplate :=
        match g.LaunchTemplate with
        | none => none
        | some c => some { Name := c.LaunchTemplateName, ID := c.LaunchTemplateId }
      -- MixedInstancesPolicy handling
      let mipd := g.MixedInstancesPolicy.bind (·.InstancesDistribution)
      let mixedSpotMaxPrice : Option String :=
        match mipd with
        | none => none
        | some d =>
          match d.SpotMaxPrice with
          | none => some ""
          | some p => some p
      let mlt := g.MixedInstancesPolicy.bind (·.LaunchTemplate)
      let lt1 : Option Kops.LaunchTemplate :=
        match mlt.bind (·.LaunchTemplateSpecification) with
        | some spec => some { Name := spec.LaunchTemplateName, ID := spec.LaunchTemplateId }
        | none => lt0
      let mixedOverrides : Option (List String) :=
        match mlt with
        | none => none
        | some m =>
          if m.Overrides.isEmpty then none
          else some (m.Overrides.map fun o => valueOf o.InstanceType)
      -- instance requirements via the external findInstanceRequirements
      let ir := env.findInstanceRequirements g
      -- replace actual.Subnets by the desired slice when set-equal
      let subnets2 : Option (List Subnet) :=
        if subnetSlicesEqualIgnoreOrder (optList subnets) (optList e.Subnets)
        then e.Subnets else subnets
      match suspendedNames g.SuspendedProcesses with
      | .error msg => .error msg
      | .ok processes =>
        let actual : AutoscalingGroup :=
          { emptyASG with
            Name := g.AutoScalingGroupName
            MaxSize := g.MaxSize
            MinSize := g.MinSize
            MaxInstanceLifetime := maxLifetime
            LoadBalancers := some lbsSorted
            TargetGroups := some tgsSorted
            Subnets := subnets2
            Metrics := metrics
            Granularity := granularity
            Tags := tags
            LaunchTemplate := lt1
            MixedOnDemandAboveBase := mipd.bind (·.OnDemandPercentageAboveBaseCapacity)
            MixedOnDemandAllocationStrategy := mipd.bind (·.OnDemandAllocationStrategy)
            MixedOnDemandBase := mipd.bind (·.OnDemandBaseCapacity)
            MixedSpotAllocationStrategy := mipd.bind (·.SpotAllocationStrategy)
            MixedSpotInstancePools := mipd.bind (·.SpotInstancePools)
            MixedSpotMaxPrice := mixedSpotMaxPrice
            MixedInstanceOverrides := mixedOverrides
            InstanceRequirements := ir
            SuspendProcesses := some processes
            -- Avoid spurious changes
            Lifecycle := e.Lifecycle
            InstanceProtection :=
              match g.NewInstancesProtectedFromScaleIn with
              | none => none
              | some b => some b }
        .ok (some actual, e.deletions ++ newDeletions)

/-- AutoscalingGroup.Normalize: sorts e.Metrics in place and has the cloud add
its default tags to e.Tags (awsup.AWSCloud.AddTags, defined outside this
corpus, injected as a function of name and tags). -/
def AutoscalingGroup.Normalize (e : AutoscalingGroup)
    (addTags : Option String → Option (List (String × String)) → Option (List (String × String))) :
    AutoscalingGroup :=
  { e with Metrics := e.Metrics.map sortStrings
           Tags := addTags e.Name e.Tags }

/-- AutoscalingGroup.CheckChanges. -/
def AutoscalingGroup.CheckChanges (a : Option AutoscalingGroup) (ex : AutoscalingGroup)
    (_changes : Option AutoscalingGroup) : Except CheckError Unit :=
  match a with
  | some _ => if ex.Name = none then .error (.RequiredField "Name") else .ok ()
  | none => .ok ()

/-- AutoscalingGroup.FindDeletions: returns e.deletions. -/
def AutoscalingGroup.FindDeletions (e : AutoscalingGroup) : List DeleteTGAttachment :=
  e.deletions

/-- A dependency edge declared by AutoscalingGroup.GetDependencies. -/
inductive ASGDep where
  | lb (l : ClassicLoadBalancer)
  | tg (t : TargetGroup)
  | subnet (s : Subnet)
  | launchTemplate (lt : LaunchTemplate)
deriving DecidableEq, Repr

/-- AutoscalingGroup.GetDependencies: load balancers, target groups, subnets
and the launch template; deletions and the warm pool are never included. -/
def AutoscalingGroup.GetDependencies (e : AutoscalingGroup) : List ASGDep :=
  (optList e.LoadBalancers).map ASGDep.lb ++
  (optList e.TargetGroups).map ASGDep.tg ++
  (optList e.Subnets).map ASGDep.subnet ++
  (match e.LaunchTemplate with
   | some lt => [ASGDep.launchTemplate lt]
   | none => [])

/-! ### RenderAWS helpers -/

/-- AutoscalingGroup.UseMixedInstancesPolicy. -/
def AutoscalingGroup.UseMixedInstancesPolicy (e : AutoscalingGroup) : Bool :=
  if e.LaunchTemplate = none then false
  else if e.MixedOnDemandAboveBase ≠ none then true
  else if e.MixedOnDemandBase ≠ none then true
  else if e.MixedSpotAllocationStrategy ≠ none then true
  else if e.MixedSpotInstancePools ≠ none then true
  else if (optList e.MixedInstanceOverrides).length > 0 then true
  else if e.MixedSpotMaxPrice ≠ none then true
  else if e.InstanceRequirements ≠ none then true
  else false

/-- autoscalingtypes.Tag as built for requests. -/
structure ASGTag where
  Key : Option String
  Value : Option String
  ResourceId : Option String
  ResourceType : Option String
  PropagateAtLaunch : Option Bool
deriving DecidableEq, Repr

/-- AutoscalingGroup.AutoscalingGroupTags (the Go map iteration order is the
association list order here). -/
def AutoscalingGroup.AutoscalingGroupTags (e : AutoscalingGroup) : List ASGTag :=
  (optList e.Tags).map fun kv =>
    { Key := some kv.1, Value := some kv.2, ResourceId := e.Name
      ResourceType := some "auto-scaling-group", PropagateAtLaunch := some true }

/-- AutoscalingGroup.AutoscalingGroupSubnets. -/
def AutoscalingGroup.AutoscalingGroupSubnets (e : AutoscalingGroup) : List String :=
  (optList e.Subnets).map fun s => valueOf s.ID

/-- AutoscalingGroup.AutoscalingLoadBalancers. -/
def AutoscalingGroup.AutoscalingLoadBalancers (e : AutoscalingGroup) : List String :=
  (optList e.LoadBalancers).map fun v => valueOf v.LoadBalancerName

/-- AutoscalingGroup.AutoscalingTargetGroups. -/
def AutoscalingGroup.AutoscalingTargetGroups (e : AutoscalingGroup) : List String :=
  (optList e.TargetGroups).map fun v => valueOf v.ARN

/-- processCompare(a, b): processes in a but not in b (the Go code
dereferences both slice pointers; callers pass non-nil values here). -/
def processCompare (a b : List String) : List String :=
  a.filter fun ap => !(b.contains ap)

/-- AutoscalingGroup.getASGTagsToDelete: current tags whose key is absent
from the desired tag map. -/
def AutoscalingGroup.getASGTagsToDelete (e : AutoscalingGroup)
    (currentTags : List (String × String)) : List ASGTag :=
  (currentTags.filter fun kv => !(mapHasKey (optList e.Tags) kv.1)).map fun kv =>
    { Key := some kv.1, Value := some kv.2, ResourceId := e.Name
      ResourceType := some "auto-scaling-group", PropagateAtLaunch := none }

/-- AutoscalingGroup.getLBsToDetach: current LBs whose (dereferenced) name is
not among the desired LB names. -/
def AutoscalingGroup.getLBsToDetach (e : AutoscalingGroup)
    (currentLBs : List ClassicLoadBalancer) : List String :=
  let desired := (optList e.LoadBalancers).map fun v => valueOf v.Name
  (currentLBs.filter fun v => !(desired.contains (valueOf v.Name))).map fun v =>
    valueOf v.Name

/-- AutoscalingGroup.getTGsToDetach: current TGs whose (dereferenced) ARN is
not among the desired TG ARNs. -/
def AutoscalingGroup.getTGsToDetach (e : AutoscalingGroup)
    (currentTGs : List TargetGroup) : List (Option String) :=
  let desired := (optList e.TargetGroups).map fun v => valueOf v.ARN
  (currentTGs.filter fun v => !(desired.contains (valueOf v.ARN))).map fun v => v.ARN

/-- Auto Scaling group API operation limit for AttachLoadBalancerTargetGroups. -/
def attachLoadBalancerTargetGroupsMaxItems : Nat := 10

/-- sliceChunks(slice, chunkSize): consecutive chunks of at most chunkSize
elements. The Go loop advances by chunkSize; a chunkSize of 0 never
terminates there and is modelled as producing no chunks (the only caller
passes the constant 10). -/
def sliceChunks (slice : List String) (chunkSize : Nat) : List (List String) :=
  if chunkSize = 0 ∨ slice = [] then []
  else slice.take chunkSize :: sliceChunks (slice.drop chunkSize) chunkSize
termination_by slice.length
decreasing_by
  rename_i h
  simp only [not_or] at h
  have h1 : chunkSize ≠ 0 := h.1
  have h2 : slice ≠ [] := h.2
  have : 0 < slice.length := List.length_pos.mpr h2
  simp only [List.length_drop]
  omega

/-! ### RenderAWS request types -/

/-- autoscalingtypes.LaunchTemplateSpecification as built for requests. -/
structure LTSpecReq where
  LaunchTemplateId : Option String
  Version : Option String
deriving DecidableEq, Repr

/-- autoscalingtypes.LaunchTemplateOverrides as built for requests: either an
instance-type override, or the override built by overridesFromInstanceRequirements
(defined outside this corpus, kept abstract). -/
inductive LTOverrideReq where
  | instanceType (t : String)
  | fromRequirements (ir : InstanceRequirements)
deriving DecidableEq, Repr

/-- autoscalingtypes.LaunchTemplate (mixed-instances-policy form) for requests. -/
structure MIPLaunchTemplateReq where
  LaunchTemplateSpecification : Option LTSpecReq
  Overrides : List LTOverrideReq
deriving DecidableEq, Repr

/-- autoscalingtypes.InstancesDistribution, restricted to the fields the
renderer writes. -/
structure InstancesDistributionReq where
  OnDemandPercentageAboveBaseCapacity : Option Int
  OnDemandBaseCapacity : Option Int
  SpotAllocationStrategy : Option String
  SpotInstancePools : Option Int
  SpotMaxPrice : Option String
deriving DecidableEq, Repr

/-- The all-nil InstancesDistribution built by the update-path setup closure. -/
def emptyDistribution : InstancesDistributionReq :=
  { OnDemandPercentageAboveBaseCapacity := none, OnDemandBaseCapacity := none
    SpotAllocationStrategy := none, SpotInstancePools := none, SpotMaxPrice := none }

/-- autoscalingtypes.MixedInstancesPolicy as built for requests (its
InstancesDistribution is always allocated by the code that creates it). -/
structure MIPReq where
  InstancesDistribution : InstancesDistributionReq
  LaunchTemplate : Option MIPLaunchTemplateReq
deriving DecidableEq, Repr

/-- autoscaling.CreateAutoScalingGroupInput, restricted to the fields written. -/
structure CreateASGInput where
  AutoScalingGroupName : Option String
  MinSize : Option Int
  MaxSize : Option Int
  NewInstancesProtectedFromScaleIn : Option Bool
  Tags : List ASGTag
  VPCZoneIdentifier : Option String
  CapacityRebalance : Option Bool
  MaxInstanceLifetime : Option Int
  LoadBalancerNames : List String
  TargetGroupARNs : List String
  MixedInstancesPolicy : Option MIPReq
  LaunchTemplate : Option LTSpecReq
deriving DecidableEq, Repr

/-- autoscaling.UpdateAutoScalingGroupInput, restricted to the fields written. -/
structure UpdateASGInput where
  AutoScalingGroupName : Option String
  MinSize : Option Int
  MaxSize : Option Int
  VPCZoneIdentifier : Option String
  MaxInstanceLifetime : Option Int
  LaunchTemplate : Option LTSpecReq
  MixedInstancesPolicy : Option MIPReq
  NewInstancesProtectedFromScaleIn : Option Bool
  CapacityRebalance : Option Bool
deriving DecidableEq, Repr

/-- The error shapes RenderAWS can return: fi.NewTryAgainLaterError or a
generic (fmt.Errorf-wrapped) error. -/
inductive RenderErr where
  | tryAgainLater (msg : String)
  | generic (msg : String)
deriving DecidableEq, Repr

/-- A typed AWS SDK error as read by awsup.AWSErrorCode / awsup.AWSErrorMessage. -/
structure AWSApiError where
  code : String
  message : String
deriving DecidableEq, Repr

/-- Provider-call results for the create path of RenderAWS. -/
structure AWSCreateEnv where
  findELBByNameTag : String → Except String (Option ELBDesc)
  createResult : Except AWSApiError Unit
  enableMetricsResult : Except String Unit
  suspendResult : Except String Unit

/-- The create-path loop resolving request.LoadBalancerNames: an entry with a
nil LoadBalancerName is looked up by name tag; a missing description is an
error. -/
def resolveLBNames (findELB : String → Except String (Option ELBDesc)) :
    List ClassicLoadBalancer → Except String (List String)
  | [] => .ok []
  | k :: rest =>
    match k.LoadBalancerName with
    | none =>
      match findELB (valueOf k.Name) with
      | .error msg => .error msg
      | .ok none => .error "could not find load balancer to attach"
      | .ok (some desc) =>
        (resolveLBNames findELB rest).map (valueOf desc.LoadBalancerName :: ·)
    | some n => (resolveLBNames findELB rest).map (n :: ·)

/-- The create path of AutoscalingGroup.RenderAWS (taken when a is nil).
Returns the CreateAutoScalingGroup request on success. -/
def AutoscalingGroup.RenderAWSCreate (e : AutoscalingGroup) (env : AWSCreateEnv) :
    Except RenderErr CreateASGInput :=
  let base : CreateASGInput :=
    { AutoScalingGroupName := e.Name
      MinSize := e.MinSize
      MaxSize := e.MaxSize
      NewInstancesProtectedFromScaleIn := e.InstanceProtection
      Tags := e.AutoscalingGroupTags
      VPCZoneIdentifier := some (String.intercalate "," e.AutoscalingGroupSubnets)
      CapacityRebalance := e.CapacityRebalance
      -- on ASG creation a 0 value is forbidden
      MaxInstanceLifetime :=
        if valueOfInt e.MaxInstanceLifetime = 0 then none else e.MaxInstanceLifetime
      LoadBalancerNames := []
      TargetGroupARNs := (optList e.TargetGroups).map fun tg => valueOf tg.ARN
      MixedInstancesPolicy := none
      LaunchTemplate := none }
  match resolveLBNames env.findELBByNameTag (optList e.LoadBalancers) with
  | .error msg => .error (.generic msg)
  | .ok lbNames =>
    let req1 := { base with LoadBalancerNames := lbNames }
    let reqStep : Except RenderErr CreateASGInput :=
      if e.UseMixedInstancesPolicy then
        match e.LaunchTemplate with
        -- unreachable: UseMixedInstancesPolicy requires a LaunchTemplate
        | none => .error (.generic "nil pointer dereference")
        | some lt =>
          let overrides :=
            (optList e.MixedInstanceOverrides).map LTOverrideReq.instanceType ++
            (match e.InstanceRequirements with
             | some ir => [LTOverrideReq.fromRequirements ir]
             | none => [])
          let mip : MIPReq :=
            { InstancesDistribution :=
                { OnDemandPercentageAboveBaseCapacity := e.MixedOnDemandAboveBase
                  OnDemandBaseCapacity := e.MixedOnDemandBase
                  SpotAllocationStrategy := e.MixedSpotAllocationStrategy
                  SpotInstancePools := e.MixedSpotInstancePools
                  SpotMaxPrice := e.MixedSpotMaxPrice }
              LaunchTemplate := some
                { LaunchTemplateSpecification :=
                    some { LaunchTemplateId := lt.ID, Version := some "$Latest" }
                  Overrides := overrides } }
          .ok { req1 with MixedInstancesPolicy := some mip }
      else
        match e.LaunchTemplate with
        | some lt =>
          let spec : LTSpecReq := { LaunchTemplateId := lt.ID, Version := some "$Latest" }
          .ok { req1 with LaunchTemplate := some spec }
        | none =>
          .error (.generic "could not find one of launch template or mixed instances policy")
    match reqStep with
    | .error err => .error err
    | .ok request =>
      match env.createResult with
      | .error err =>
        if err.code = "ValidationError" ∧ strContains err.message "Invalid IAM Instance Profile name" then
          .error (.tryAgainLater "waiting for the IAM Instance Profile to be propagated")
        else
          .error (.generic ("error creating AutoScalingGroup: " ++ err.message))
      | .ok _ =>
        match env.enableMetricsResult with
        | .error msg =>
          .error (.generic ("error enabling metrics collection for AutoscalingGroup: " ++ msg))
        | .ok _ =>
          -- the Go code dereferences *e.SuspendProcesses
          match e.SuspendProcesses with
          | none => .error (.generic "nil pointer dereference")
          | some ps =>
            if ps.length > 0 then
              match env.suspendResult with
              | .error msg => .error (.generic ("error suspending processes: " ++ msg))
              | .ok _ => .ok request
            else .ok request

/-! ### RenderAWS update path -/

/-- The setup closure of the update path: allocates the request
MixedInstancesPolicy (with an empty InstancesDistribution) on first use. -/
def setupMIP (req : UpdateASGInput) : UpdateASGInput :=
  match req.MixedInstancesPolicy with
  | none =>
    let mip : MIPReq := { InstancesDistribution := emptyDistribution, LaunchTemplate := none }
    { req with MixedInstancesPolicy := some mip }
  | some _ => req

/-- setup(request).InstancesDistribution.field assignment. -/
def setMIPDistribution (req : UpdateASGInput)
    (f : InstancesDistributionReq → InstancesDistributionReq) : UpdateASGInput :=
  let req := setupMIP req
  { req with MixedInstancesPolicy := req.MixedInstancesPolicy.map fun m =>
      { m with InstancesDistribution := f m.InstancesDistribution } }

/-- setup(request).LaunchTemplate assignment. -/
def setMIPLaunchTemplate (req : UpdateASGInput) (lt : MIPLaunchTemplateReq) : UpdateASGInput :=
  let req := setupMIP req
  { req with MixedInstancesPolicy := req.MixedInstancesPolicy.map fun m =>
      { m with LaunchTemplate := some lt } }

/-- Appending to request.MixedInstancesPolicy.LaunchTemplate.Overrides. -/
def appendMIPOverrides (req : UpdateASGInput) (ovs : List LTOverrideReq) : UpdateASGInput :=
  { req with MixedInstancesPolicy := req.MixedInstancesPolicy.map fun m =>
      { m with LaunchTemplate := m.LaunchTemplate.map fun lt =>
          { lt with Overrides := lt.Overrides ++ ovs } } }

/-- Provider-call results for the update path of RenderAWS. -/
structure AWSUpdateEnv where
  enableMetricsResult : Except String Unit
  suspendResult : Except String Unit
  resumeResult : Except String Unit
  updateResult : Except String Unit
  deleteTagsResult : Except String Unit
  createOrUpdateTagsResult : Except String Unit
  detachLBResult : Except String Unit
  attachLBResult : Except String Unit
  attachTGResult : Except String Unit
deriving DecidableEq, Repr

/-- The AWSUpdateEnv in which every provider call succeeds. -/
def allOkUpdateEnv : AWSUpdateEnv :=
  { enableMetricsResult := .ok (), suspendResult := .ok (), resumeResult := .ok ()
    updateResult := .ok (), deleteTagsResult := .ok (), createOrUpdateTagsResult := .ok ()
    detachLBResult := .ok (), attachLBResult := .ok (), attachTGResult := .ok () }

/-- Trace of a successful update-path execution: the final UpdateAutoScalingGroup
request, the changes value after all clearing, and the secondary requests. -/
structure UpdateLog where
  request : UpdateASGInput
  finalChanges : AutoscalingGroup
  updateTagsRequest : Option (List ASGTag)
  deleteTagsRequest : Option (List ASGTag)
  attachLBRequest : Option (List String)
  detachLBRequest : Option (List String)
  attachTGRequests : List (List String)
  metricsCallMade : Bool
  suspendedProcesses : List String
  resumedProcesses : List String
deriving DecidableEq, Repr

/-- Update-path state: the UpdateAutoScalingGroup request being built together
with the changes value being cleared field by field. -/
abbrev UpdState := UpdateASGInput × AutoscalingGroup

/-- Update path, lines handling LaunchTemplate (also removing a
mixedInstancesPolicy dropped from the spec); dereferences e.LaunchTemplate.ID. -/
def updLaunchTemplate (a e : AutoscalingGroup) (s : UpdState) : Except String UpdState :=
  if s.2.LaunchTemplate ≠ none ∨ (a.UseMixedInstancesPolicy ∧ ¬ e.UseMixedInstancesPolicy) then
    match e.LaunchTemplate with
    | none => .error "nil pointer dereference"
    | some lt =>
      let spec : LTSpecReq := { LaunchTemplateId := lt.ID, Version := some "$Latest" }
      let req1 :=
        if e.UseMixedInstancesPolicy then
          setMIPLaunchTemplate s.1 { LaunchTemplateSpecification := some spec, Overrides := [] }
        else
          { s.1 with LaunchTemplate := some spec }
      .ok (req1, { s.2 with LaunchTemplate := none })
  else .ok s

/-- Update path, changes.MixedOnDemandAboveBase. -/
def updMixedOnDemandAboveBase (e : AutoscalingGroup) (s : UpdState) : UpdState :=
  if s.2.MixedOnDemandAboveBase ≠ none then
    (setMIPDistribution s.1 (fun d =>
      { d with OnDemandPercentageAboveBaseCapacity := e.MixedOnDemandAboveBase }),
     { s.2 with MixedOnDemandAboveBase := none })
  else s

/-- Update path, changes.MixedOnDemandBase. -/
def updMixedOnDemandBase (e : AutoscalingGroup) (s : UpdState) : UpdState :=
  if s.2.MixedOnDemandBase ≠ none then
    (setMIPDistribution s.1 (fun d => { d with OnDemandBaseCapacity := e.MixedOnDemandBase }),
     { s.2 with MixedOnDemandBase := none })
  else s

/-- Update path, changes.MixedSpotAllocationStrategy. -/
def updMixedSpotAllocationStrategy (e : AutoscalingGroup) (s : UpdState) : UpdState :=
  if s.2.MixedSpotAllocationStrategy ≠ none then
    (setMIPDistribution s.1 (fun d =>
      { d with SpotAllocationStrategy := e.MixedSpotAllocationStrategy }),
     { s.2 with MixedSpotAllocationStrategy := none })
  else s

/-- Update path, changes.MixedSpotInstancePools. -/
def updMixedSpotInstancePools (e : AutoscalingGroup) (s : UpdState) : UpdState :=
  if s.2.MixedSpotInstancePools ≠ none then
    (setMIPDistribution s.1 (fun d => { d with SpotInstancePools := e.MixedSpotInstancePools }),
     { s.2 with MixedSpotInstancePools := none })
  else s

/-- Update path, changes.MixedSpotMaxPrice. -/
def updMixedSpotMaxPrice (e : AutoscalingGroup) (s : UpdState) : UpdState :=
  if s.2.MixedSpotMaxPrice ≠ none then
    (setMIPDistribution s.1 (fun d => { d with SpotMaxPrice := e.MixedSpotMaxPrice }),
     { s.2 with MixedSpotMaxPrice := none })
  else s

/-- Update path, changes.MixedInstanceOverrides / changes.InstanceRequirements
(the condition itself calls setup(request), allocating the policy); dereferences
e.LaunchTemplate.ID when the policy has no launch template yet. -/
def updOverridesWithLT (e : AutoscalingGroup) (pre : UpdateASGInput) :
    Except String UpdateASGInput :=
  if (pre.MixedInstancesPolicy.bind (·.LaunchTemplate)).isNone then
    match e.LaunchTemplate with
    | none => .error "nil pointer dereference"
    | some lt =>
      let spec : LTSpecReq := { LaunchTemplateId := lt.ID, Version := some "$Latest" }
      .ok (setMIPLaunchTemplate pre
        { LaunchTemplateSpecification := some spec, Overrides := [] })
  else .ok pre

/-- The two inner blocks appending changes.MixedInstanceOverrides and the
overridesFromInstanceRequirements override, clearing both changes fields. -/
def updOverridesApply (reqA : UpdateASGInput) (ch : AutoscalingGroup) : UpdState :=
  let sB : UpdState :=
    match ch.MixedInstanceOverrides with
    | some ovs =>
      (appendMIPOverrides reqA (ovs.map LTOverrideReq.instanceType),
       { ch with MixedInstanceOverrides := none })
    | none => (reqA, ch)
  match sB.2.InstanceRequirements with
  | some ir =>
    (appendMIPOverrides sB.1 [LTOverrideReq.fromRequirements ir],
     { sB.2 with InstanceRequirements := none })
  | none => sB

def updOverrides (e : AutoscalingGroup) (s : UpdState) : Except String UpdState :=
  if s.2.MixedInstanceOverrides ≠ none ∨ s.2.InstanceRequirements ≠ none then
    match updOverridesWithLT e (setupMIP s.1) with
    | .error msg => .error msg
    | .ok reqA => .ok (updOverridesApply reqA s.2)
  else .ok s

/-- Update path, changes.MinSize. -/
def updMinSize (e : AutoscalingGroup) (s : UpdState) : UpdState :=
  if s.2.MinSize ≠ none then
    ({ s.1 with MinSize := e.MinSize }, { s.2 with MinSize := none })
  else s

/-- Update path, changes.MaxSize. -/
def updMaxSize (e : AutoscalingGroup) (s : UpdState) : UpdState :=
  if s.2.MaxSize ≠ none then
    ({ s.1 with MaxSize := e.MaxSize }, { s.2 with MaxSize := none })
  else s

/-- Update path, changes.Subnets. -/
def updSubnets (e : AutoscalingGroup) (s : UpdState) : UpdState :=
  if s.2.Subnets ≠ none then
    ({ s.1 with VPCZoneIdentifier := some (String.intercalate "," e.AutoscalingGroupSubnets) },
     { s.2 with Subnets := none })
  else s

/-- Update path, changes.MaxInstanceLifetime: an unchanged lifetime still sets
the request field to an explicit 0. -/
def updMaxInstanceLifetime (e : AutoscalingGroup) (s : UpdState) : UpdState :=
  if s.2.MaxInstanceLifetime ≠ none then
    ({ s.1 with MaxInstanceLifetime := e.MaxInstanceLifetime },
     { s.2 with MaxInstanceLifetime := none })
  else
    ({ s.1 with MaxInstanceLifetime := some 0 }, s.2)

/-- Update path, changes.Tags: builds the CreateOrUpdateTags and DeleteTags
requests. -/
def updTags (a e : AutoscalingGroup) (ch : AutoscalingGroup) :
    Option (List ASGTag) × Option (List ASGTag) × AutoscalingGroup :=
  if ch.Tags ≠ none then
    (some e.AutoscalingGroupTags,
     if (optList a.Tags).length > 0 then some (e.getASGTagsToDelete (optList a.Tags)) else none,
     { ch with Tags := none })
  else (none, none, ch)

/-- Update path, changes.LoadBalancers: builds the AttachLoadBalancers and
DetachLoadBalancers requests. -/
def updLoadBalancers (a e : AutoscalingGroup) (ch : AutoscalingGroup) :
    Option (List String) × Option (List String) × AutoscalingGroup :=
  if ch.LoadBalancers ≠ none then
    ((if (optList e.LoadBalancers).length > 0 then some e.AutoscalingLoadBalancers else none),
     (if (optList a.LoadBalancers).length > 0 then
        some (e.getLBsToDetach (optList a.LoadBalancers))
      else none),
     { ch with LoadBalancers := none })
  else (none, none, ch)

/-- Update path, changes.TargetGroups: builds the chunked
AttachLoadBalancerTargetGroups requests (detaching is done in a deletion task). -/
def updTargetGroups (e : AutoscalingGroup) (ch : AutoscalingGroup) :
    List (List String) × AutoscalingGroup :=
  if ch.TargetGroups ≠ none then
    ((if (optList e.TargetGroups).length > 0 then
        sliceChunks e.AutoscalingTargetGroups attachLoadBalancerTargetGroupsMaxItems
      else []),
     { ch with TargetGroups := none })
  else ([], ch)

/-- Update path, changes.Metrics / changes.Granularity: calls
EnableMetricsCollection and clears both fields, but only when the desired
Metrics list is non-empty (disabling metrics is an unsupported TODO in the
source). Returns whether the call was made. -/
def updMetrics (e : AutoscalingGroup) (enableMetricsResult : Except String Unit)
    (ch : AutoscalingGroup) : Except String (Bool × AutoscalingGroup) :=
  if ch.Metrics ≠ none ∨ ch.Granularity ≠ none then
    if (optList e.Metrics).length ≠ 0 then
      match enableMetricsResult with
      | .error msg =>
        .error ("error enabling metrics collection for AutoscalingGroup: " ++ msg)
      | .ok _ => .ok (true, { ch with Metrics := none, Granularity := none })
    else .ok (false, ch)
  else .ok (false, ch)

/-- Update path, changes.SuspendProcesses: suspends and resumes the process
difference (the Go code dereferences both slice pointers). Returns the
suspended and resumed process lists. -/
def updSuspendProcesses (a e : AutoscalingGroup)
    (suspendResult resumeResult : Except String Unit) (ch : AutoscalingGroup) :
    Except String (List String × List String × AutoscalingGroup) :=
  if ch.SuspendProcesses ≠ none then
    match e.SuspendProcesses, a.SuspendProcesses with
    | some eps, some aps =>
      let toSuspend := processCompare eps aps
      let toResume := processCompare aps eps
      let afterSuspend : Except String Unit :=
        if toSuspend.length > 0 then
          match suspendResult with
          | .error msg => .error ("error suspending processes: " ++ msg)
          | .ok _ => .ok ()
        else .ok ()
      match afterSuspend with
      | .error msg => .error msg
      | .ok _ =>
        let afterResume : Except String Unit :=
          if toResume.length > 0 then
            match resumeResult with
            | .error msg => .error ("error resuming processes: " ++ msg)
            | .ok _ => .ok ()
          else .ok ()
        match afterResume with
        | .error msg => .error msg
        | .ok _ => .ok (toSuspend, toResume, { ch with SuspendProcesses := none })
    | _, _ => .error "nil pointer dereference"
  else .ok ([], [], ch)

/-- Update path, changes.InstanceProtection. -/
def updInstanceProtection (e : AutoscalingGroup) (s : UpdState) : UpdState :=
  if s.2.InstanceProtection ≠ none then
    ({ s.1 with NewInstancesProtectedFromScaleIn := e.InstanceProtection },
     { s.2 with InstanceProtection := none })
  else s

/-- Update path, changes.CapacityRebalance. -/
def updCapacityRebalance (e : AutoscalingGroup) (s : UpdState) : UpdState :=
  if s.2.CapacityRebalance ≠ none then
    ({ s.1 with CapacityRebalance := e.CapacityRebalance },
     { s.2 with CapacityRebalance := none })
  else s

/-- The trailing provider calls of the update path, in source order:
UpdateAutoScalingGroup, DeleteTags (only for a non-empty tag list),
CreateOrUpdateTags, DetachLoadBalancers, AttachLoadBalancers, and the chunked
AttachLoadBalancerTargetGroups calls. -/
def updTrailingCalls (env : AWSUpdateEnv)
    (deleteTagsReq updateTagsReq : Option (List ASGTag))
    (detachLBReq attachLBReq : Option (List String))
    (attachTGReqs : List (List String)) : Except String Unit :=
  match env.updateResult with
  | .error msg => .error ("error updating AutoscalingGroup: " ++ msg)
  | .ok _ =>
    let afterDeleteTags : Except String Unit :=
      match deleteTagsReq with
      | some tags =>
        if tags.length > 0 then
          match env.deleteTagsResult with
          | .error msg => .error ("error deleting old AutoscalingGroup tags: " ++ msg)
          | .ok _ => .ok ()
        else .ok ()
      | none => .ok ()
    match afterDeleteTags with
    | .error msg => .error msg
    | .ok _ =>
      let afterUpdateTags : Except String Unit :=
        match updateTagsReq with
        | some _ =>
          match env.createOrUpdateTagsResult with
          | .error msg => .error ("error updating AutoscalingGroup tags: " ++ msg)
          | .ok _ => .ok ()
        | none => .ok ()
      match afterUpdateTags with
      | .error msg => .error msg
      | .ok _ =>
        let afterDetachLB : Except String Unit :=
          match detachLBReq with
          | some _ =>
            match env.detachLBResult with
            | .error msg => .error ("error detatching LoadBalancers: " ++ msg)
            | .ok _ => .ok ()
          | none => .ok ()
        match afterDetachLB with
        | .error msg => .error msg
        | .ok _ =>
          let afterAttachLB : Except String Unit :=
            match attachLBReq with
            | some _ =>
              match env.attachLBResult with
              | .error msg => .error ("error attaching LoadBalancers: " ++ msg)
              | .ok _ => .ok ()
            | none => .ok ()
          match afterAttachLB with
          | .error msg => .error msg
          | .ok _ =>
            if attachTGReqs.length > 0 then
              match env.attachTGResult with
              | .error msg => .error ("failed to attach target groups: " ++ msg)
              | .ok _ => .ok ()
            else .ok ()

/-- The update path of AutoscalingGroup.RenderAWS (taken when a is non-nil).
The changes argument is mutated field by field in the Go code; here the
evolving (request, changes) state is threaded through the per-block step
functions in source order, with provider-call results coming from env.
A non-empty remaining changes value only logs a warning in the source. -/
def AutoscalingGroup.RenderAWSUpdate (a e changes : AutoscalingGroup) (env : AWSUpdateEnv) :
    Except String UpdateLog :=
  let req0 : UpdateASGInput :=
    { AutoScalingGroupName := e.Name, MinSize := none, MaxSize := none
      VPCZoneIdentifier := none, MaxInstanceLifetime := none
      LaunchTemplate := none, MixedInstancesPolicy := none
      NewInstancesProtectedFromScaleIn := none, CapacityRebalance := none }
  match updLaunchTemplate a e (req0, changes) with
  | .error msg => .error msg
  | .ok s1 =>
    let s6 := updMixedSpotMaxPrice e (updMixedSpotInstancePools e
      (updMixedSpotAllocationStrategy e (updMixedOnDemandBase e
        (updMixedOnDemandAboveBase e s1))))
    match updOverrides e s6 with
    | .error msg => .error msg
    | .ok s7 =>
      let s11 := updMaxInstanceLifetime e (updSubnets e (updMaxSize e (updMinSize e s7)))
      let tagsStep := updTags a e s11.2
      let updateTagsReq := tagsStep.1
      let deleteTagsReq := tagsStep.2.1
      let lbStep := updLoadBalancers a e tagsStep.2.2
      let attachLBReq := lbStep.1
      let detachLBReq := lbStep.2.1
      let tgStep := updTargetGroups e lbStep.2.2
      let attachTGReqs := tgStep.1
      match updMetrics e env.enableMetricsResult tgStep.2 with
      | .error msg => .error msg
      | .ok ms =>
        match updSuspendProcesses a e env.suspendResult env.resumeResult ms.2 with
        | .error msg => .error msg
        | .ok sp =>
          let sF := updCapacityRebalance e (updInstanceProtection e (s11.1, sp.2.2))
          match updTrailingCalls env deleteTagsReq updateTagsReq detachLBReq
              attachLBReq attachTGReqs with
          | .error msg => .error msg
          | .ok _ =>
            .ok { request := sF.1
                  finalChanges := sF.2
                  updateTagsRequest := updateTagsReq
                  deleteTagsRequest := deleteTagsReq
                  attachLBRequest := attachLBReq
                  detachLBRequest := detachLBReq
                  attachTGRequests := attachTGReqs
                  metricsCallMade := ms.1
                  suspendedProcesses := sp.1
                  resumedProcesses := sp.2.1 }

/-! ## Helper lemmas -/

section EtaLemmas

theorem eta_LaunchTemplate (c : AutoscalingGroup) (h : c.LaunchTemplate = none) :
    ({ c with LaunchTemplate := none } : AutoscalingGroup) = c := by
  cases c; simp_all

theorem eta_MixedOnDemandAboveBase (c : AutoscalingGroup) (h : c.MixedOnDemandAboveBase = none) :
    ({ c with MixedOnDemandAboveBase := none } : AutoscalingGroup) = c := by
  cases c; simp_all

theorem eta_MixedOnDemandBase (c : AutoscalingGroup) (h : c.MixedOnDemandBase = none) :
    ({ c with MixedOnDemandBase := none } : AutoscalingGroup) = c := by
  cases c; simp_all

theorem eta_MixedSpotAllocationStrategy (c : AutoscalingGroup)
    (h : c.MixedSpotAllocationStrategy = none) :
    ({ c with MixedSpotAllocationStrategy := none } : AutoscalingGroup) = c := by
  cases c; simp_all

theorem eta_MixedSpotInstancePools (c : AutoscalingGroup) (h : c.MixedSpotInstancePools = none) :
    ({ c with MixedSpotInstancePools := none } : AutoscalingGroup) = c := by
  cases c; simp_all

theorem eta_MixedSpotMaxPrice (c : AutoscalingGroup) (h : c.MixedSpotMaxPrice = none) :
    ({ c with MixedSpotMaxPrice := none } : AutoscalingGroup) = c := by
  cases c; simp_all

theorem eta_Overrides (c : AutoscalingGroup) (h1 : c.MixedInstanceOverrides = none)
    (h2 : c.InstanceRequirements = none) :
    ({ c with MixedInstanceOverrides := none, InstanceRequirements := none } : AutoscalingGroup) = c := by
  cases c; simp_all

theorem eta_MinSize (c : AutoscalingGroup) (h : c.MinSize = none) :
    ({ c with MinSize := none } : AutoscalingGroup) = c := by
  cases c; simp_all

theorem eta_MaxSize (c : AutoscalingGroup) (h : c.MaxSize = none) :
    ({ c with MaxSize := none } : AutoscalingGroup) = c := by
  cases c; simp_all

theorem eta_Subnets (c : AutoscalingGroup) (h : c.Subnets = none) :
    ({ c with Subnets := none } : AutoscalingGroup) = c := by
  cases c; simp_all

theorem eta_MaxInstanceLifetime (c : AutoscalingGroup) (h : c.MaxInstanceLifetime = none) :
    ({ c with MaxInstanceLifetime := none } : AutoscalingGroup) = c := by
  cases c; simp_all

theorem eta_Tags (c : AutoscalingGroup) (h : c.Tags = none) :
    ({ c with Tags := none } : AutoscalingGroup) = c := by
  cases c; simp_all

theorem eta_LoadBalancers (c : AutoscalingGroup) (h : c.LoadBalancers = none) :
    ({ c with LoadBalancers := none } : AutoscalingGroup) = c := by
  cases c; simp_all

theorem eta_TargetGroups (c : AutoscalingGroup) (h : c.TargetGroups = none) :
    ({ c with TargetGroups := none } : AutoscalingGroup) = c := by
  cases c; simp_all

theorem eta_MetricsGranularity (c : AutoscalingGroup) (h1 : c.Metrics = none)
    (h2 : c.Granularity = none) :
    ({ c with Metrics := none, Granularity := none } : AutoscalingGroup) = c := by
  cases c; simp_all

theorem eta_SuspendProcesses (c : AutoscalingGroup) (h : c.SuspendProcesses = none) :
    ({ c with SuspendProcesses := none } : AutoscalingGroup) = c := by
  cases c; simp_all

theorem eta_InstanceProtection (c : AutoscalingGroup) (h : c.InstanceProtection = none) :
    ({ c with InstanceProtection := none } : AutoscalingGroup) = c := by
  cases c; simp_all

theorem eta_CapacityRebalance (c : AutoscalingGroup) (h : c.CapacityRebalance = none) :
    ({ c with CapacityRebalance := none } : AutoscalingGroup) = c := by
  cases c; simp_all

theorem eta_MixedInstanceOverrides (c : AutoscalingGroup) (h : c.MixedInstanceOverrides = none) :
    ({ c with MixedInstanceOverrides := none } : AutoscalingGroup) = c := by
  cases c; simp_all

theorem eta_InstanceRequirements (c : AutoscalingGroup) (h : c.InstanceRequirements = none) :
    ({ c with InstanceRequirements := none } : AutoscalingGroup) = c := by
  cases c; simp_all

end EtaLemmas

section UpdateStepLemmas

/-- The non-launch-template request fields preserved by a request transform. -/
def preservesCoreReq (r r' : UpdateASGInput) : Prop :=
  r'.AutoScalingGroupName = r.AutoScalingGroupName ∧
  r'.MinSize = r.MinSize ∧ r'.MaxSize = r.MaxSize ∧
  r'.VPCZoneIdentifier = r.VPCZoneIdentifier ∧
  r'.MaxInstanceLifetime = r.MaxInstanceLifetime ∧
  r'.NewInstancesProtectedFromScaleIn = r.NewInstancesProtectedFromScaleIn ∧
  r'.CapacityRebalance = r.CapacityRebalance

theorem preservesCoreReq_refl (r : UpdateASGInput) : preservesCoreReq r r := by
  unfold preservesCoreReq; exact ⟨rfl, rfl, rfl, rfl, rfl, rfl, rfl⟩

theorem preservesCoreReq_trans {r1 r2 r3 : UpdateASGInput}
    (h1 : preservesCoreReq r1 r2) (h2 : preservesCoreReq r2 r3) : preservesCoreReq r1 r3 := by
  unfold preservesCoreReq at *
  obtain ⟨a1, b1, c1, d1, e1, f1, g1⟩ := h1
  obtain ⟨a2, b2, c2, d2, e2, f2, g2⟩ := h2
  exact ⟨a2.trans a1, b2.trans b1, c2.trans c1, d2.trans d1,
    e2.trans e1, f2.trans f1, g2.trans g1⟩

theorem setupMIP_core (r : UpdateASGInput) : preservesCoreReq r (setupMIP r) := by
  unfold setupMIP
  cases h : r.MixedInstancesPolicy <;>
    exact ⟨rfl, rfl, rfl, rfl, rfl, rfl, rfl⟩

theorem setMIPDistribution_core (r : UpdateASGInput) (f) :
    preservesCoreReq r (setMIPDistribution r f) := by
  unfold setMIPDistribution
  refine preservesCoreReq_trans (setupMIP_core r) ?_
  exact ⟨rfl, rfl, rfl, rfl, rfl, rfl, rfl⟩

theorem setMIPLaunchTemplate_core (r : UpdateASGInput) (lt) :
    preservesCoreReq r (setMIPLaunchTemplate r lt) := by
  unfold setMIPLaunchTemplate
  refine preservesCoreReq_trans (setupMIP_core r) ?_
  exact ⟨rfl, rfl, rfl, rfl, rfl, rfl, rfl⟩

theorem appendMIPOverrides_core (r : UpdateASGInput) (ovs) :
    preservesCoreReq r (appendMIPOverrides r ovs) := by
  unfold appendMIPOverrides
  exact ⟨rfl, rfl, rfl, rfl, rfl, rfl, rfl⟩

theorem updLaunchTemplate_ok_snd {a e : AutoscalingGroup} {s s' : UpdState}
    (h : updLaunchTemplate a e s = .ok s') :
    s'.2 = { s.2 with LaunchTemplate := none } := by
  unfold updLaunchTemplate at h
  split at h
  · split at h
    · exact absurd h (by simp)
    · cases h; rfl
  · cases h
    next hcond =>
      rw [not_or] at hcond
      have h0 : s.2.LaunchTemplate = none := by
        have := hcond.1
        simpa using this
      exact (eta_LaunchTemplate s.2 h0).symm

theorem updLaunchTemplate_ok_core {a e : AutoscalingGroup} {s s' : UpdState}
    (h : updLaunchTemplate a e s = .ok s') : preservesCoreReq s.1 s'.1 := by
  unfold updLaunchTemplate at h
  split at h
  · split at h
    · exact absurd h (by simp)
    · cases h
      split
      · exact setMIPLaunchTemplate_core _ _
      · exact ⟨rfl, rfl, rfl, rfl, rfl, rfl, rfl⟩
  · cases h
    exact preservesCoreReq_refl _

theorem updMixedOnDemandAboveBase_snd (e : AutoscalingGroup) (s : UpdState) :
    (updMixedOnDemandAboveBase e s).2 = { s.2 with MixedOnDemandAboveBase := none } := by
  unfold updMixedOnDemandAboveBase
  split
  · rfl
  · next h =>
    simp only [ne_eq, not_not] at h
    exact (eta_MixedOnDemandAboveBase s.2 h).symm

theorem updMixedOnDemandAboveBase_core (e : AutoscalingGroup) (s : UpdState) :
    preservesCoreReq s.1 (updMixedOnDemandAboveBase e s).1 := by
  unfold updMixedOnDemandAboveBase
  split
  · exact setMIPDistribution_core _ _
  · exact preservesCoreReq_refl _

theorem updMixedOnDemandBase_snd (e : AutoscalingGroup) (s : UpdState) :
    (updMixedOnDemandBase e s).2 = { s.2 with MixedOnDemandBase := none } := by
  unfold updMixedOnDemandBase
  split
  · rfl
  · next h =>
    simp only [ne_eq, not_not] at h
    exact (eta_MixedOnDemandBase s.2 h).symm

theorem updMixedOnDemandBase_core (e : AutoscalingGroup) (s : UpdState) :
    preservesCoreReq s.1 (updMixedOnDemandBase e s).1 := by
  unfold updMixedOnDemandBase
  split
  · exact setMIPDistribution_core _ _
  · exact preservesCoreReq_refl _

theorem updMixedSpotAllocationStrategy_snd (e : AutoscalingGroup) (s : UpdState) :
    (updMixedSpotAllocationStrategy e s).2 = { s.2 with MixedSpotAllocationStrategy := none } := by
  unfold updMixedSpotAllocationStrategy
  split
  · rfl
  · next h =>
    simp only [ne_eq, not_not] at h
    exact (eta_MixedSpotAllocationStrategy s.2 h).symm

theorem updMixedSpotAllocationStrategy_core (e : AutoscalingGroup) (s : UpdState) :
    preservesCoreReq s.1 (updMixedSpotAllocationStrategy e s).1 := by
  unfold updMixedSpotAllocationStrategy
  split
  · exact setMIPDistribution_core _ _
  · exact preservesCoreReq_refl _

theorem updMixedSpotInstancePools_snd (e : AutoscalingGroup) (s : UpdState) :
    (updMixedSpotInstancePools e s).2 = { s.2 with MixedSpotInstancePools := none } := by
  unfold updMixedSpotInstancePools
  split
  · rfl
  · next h =>
    simp only [ne_eq, not_not] at h
    exact (eta_MixedSpotInstancePools s.2 h).symm

theorem updMixedSpotInstancePools_core (e : AutoscalingGroup) (s : UpdState) :
    preservesCoreReq s.1 (updMixedSpotInstancePools e s).1 := by
  unfold updMixedSpotInstancePools
  split
  · exact setMIPDistribution_core _ _
  · exact preservesCoreReq_refl _

theorem updMixedSpotMaxPrice_snd (e : AutoscalingGroup) (s : UpdState) :
    (updMixedSpotMaxPrice e s).2 = { s.2 with MixedSpotMaxPrice := none } := by
  unfold updMixedSpotMaxPrice
  split
  · rfl
  · next h =>
    simp only [ne_eq, not_not] at h
    exact (eta_MixedSpotMaxPrice s.2 h).symm

theorem updMixedSpotMaxPrice_core (e : AutoscalingGroup) (s : UpdState) :
    preservesCoreReq s.1 (updMixedSpotMaxPrice e s).1 := by
  unfold updMixedSpotMaxPrice
  split
  · exact setMIPDistribution_core _ _
  · exact preservesCoreReq_refl _

theorem updOverridesApply_snd (reqA : UpdateASGInput) (ch : AutoscalingGroup) :
    (updOverridesApply reqA ch).2 =
      { ch with MixedInstanceOverrides := none, InstanceRequirements := none } := by
  unfold updOverridesApply
  cases hM : ch.MixedInstanceOverrides <;>
    cases hI : ch.InstanceRequirements <;>
    cases ch <;> simp_all

theorem updOverridesApply_core (reqA : UpdateASGInput) (ch : AutoscalingGroup) :
    preservesCoreReq reqA (updOverridesApply reqA ch).1 := by
  unfold updOverridesApply
  cases hM : ch.MixedInstanceOverrides <;> simp only [hM] <;>
    cases hI : ch.InstanceRequirements <;> simp only [hI]
  · exact preservesCoreReq_refl _
  · exact appendMIPOverrides_core _ _
  · exact appendMIPOverrides_core _ _
  · exact preservesCoreReq_trans (appendMIPOverrides_core _ _) (appendMIPOverrides_core _ _)

theorem updOverridesWithLT_ok_core {e : AutoscalingGroup} {pre reqA : UpdateASGInput}
    (h : updOverridesWithLT e pre = .ok reqA) : preservesCoreReq pre reqA := by
  unfold updOverridesWithLT at h
  split at h
  · split at h
    · cases h
    · cases h
      exact setMIPLaunchTemplate_core _ _
  · cases h
    exact preservesCoreReq_refl _

theorem updOverrides_ok_snd {e : AutoscalingGroup} {s s' : UpdState}
    (h : updOverrides e s = .ok s') :
    s'.2 = { s.2 with MixedInstanceOverrides := none, InstanceRequirements := none } := by
  unfold updOverrides at h
  split at h
  · split at h
    · cases h
    · cases h
      exact updOverridesApply_snd _ _
  · cases h
    next hcond =>
      rw [not_or] at hcond
      have h1 : s.2.MixedInstanceOverrides = none := by
        have := hcond.1; simpa using this
      have h2 : s.2.InstanceRequirements = none := by
        have := hcond.2; simpa using this
      exact (eta_Overrides s.2 h1 h2).symm

theorem updOverrides_ok_core {e : AutoscalingGroup} {s s' : UpdState}
    (h : updOverrides e s = .ok s') : preservesCoreReq s.1 s'.1 := by
  unfold updOverrides at h
  split at h
  · split at h
    · cases h
    · next heq =>
      cases h
      exact preservesCoreReq_trans (setupMIP_core _)
        (preservesCoreReq_trans (updOverridesWithLT_ok_core heq) (updOverridesApply_core _ _))
  · cases h
    exact preservesCoreReq_refl _

theorem updMinSize_snd (e : AutoscalingGroup) (s : UpdState) :
    (updMinSize e s).2 = { s.2 with MinSize := none } := by
  unfold updMinSize
  split
  · rfl
  · next h =>
    simp only [ne_eq, not_not] at h
    exact (eta_MinSize s.2 h).symm

theorem updMinSize_fst (e : AutoscalingGroup) (s : UpdState) :
    (updMinSize e s).1 =
      { s.1 with MinSize := if s.2.MinSize ≠ none then e.MinSize else s.1.MinSize } := by
  unfold updMinSize
  split <;> rfl

theorem updMaxSize_snd (e : AutoscalingGroup) (s : UpdState) :
    (updMaxSize e s).2 = { s.2 with MaxSize := none } := by
  unfold updMaxSize
  split
  · rfl
  · next h =>
    simp only [ne_eq, not_not] at h
    exact (eta_MaxSize s.2 h).symm

theorem updMaxSize_fst (e : AutoscalingGroup) (s : UpdState) :
    (updMaxSize e s).1 =
      { s.1 with MaxSize := if s.2.MaxSize ≠ none then e.MaxSize else s.1.MaxSize } := by
  unfold updMaxSize
  split <;> rfl

theorem updSubnets_snd (e : AutoscalingGroup) (s : UpdState) :
    (updSubnets e s).2 = { s.2 with Subnets := none } := by
  unfold updSubnets
  split
  · rfl
  · next h =>
    simp only [ne_eq, not_not] at h
    exact (eta_Subnets s.2 h).symm

theorem updSubnets_fst (e : AutoscalingGroup) (s : UpdState) :
    (updSubnets e s).1 =
      { s.1 with VPCZoneIdentifier := (if s.2.Subnets ≠ none then
          some (String.intercalate "," e.AutoscalingGroupSubnets)
        else s.1.VPCZoneIdentifier) } := by
  unfold updSubnets
  split <;> rfl

theorem updMaxInstanceLifetime_snd (e : AutoscalingGroup) (s : UpdState) :
    (updMaxInstanceLifetime e s).2 = { s.2 with MaxInstanceLifetime := none } := by
  unfold updMaxInstanceLifetime
  split
  · rfl
  · next h =>
    simp only [ne_eq, not_not] at h
    exact (eta_MaxInstanceLifetime s.2 h).symm

theorem updMaxInstanceLifetime_fst (e : AutoscalingGroup) (s : UpdState) :
    (updMaxInstanceLifetime e s).1 =
      { s.1 with MaxInstanceLifetime := if s.2.MaxInstanceLifetime ≠ none then
          e.MaxInstanceLifetime else some 0 } := by
  unfold updMaxInstanceLifetime
  split <;> rfl

theorem updTags_snd (a e : AutoscalingGroup) (ch : AutoscalingGroup) :
    (updTags a e ch).2.2 = { ch with Tags := none } := by
  unfold updTags
  split
  · rfl
  · next h =>
    simp only [ne_eq, not_not] at h
    exact (eta_Tags ch h).symm

theorem updLoadBalancers_snd (a e : AutoscalingGroup) (ch : AutoscalingGroup) :
    (updLoadBalancers a e ch).2.2 = { ch with LoadBalancers := none } := by
  unfold updLoadBalancers
  split
  · rfl
  · next h =>
    simp only [ne_eq, not_not] at h
    exact (eta_LoadBalancers ch h).symm

theorem updTargetGroups_snd (e : AutoscalingGroup) (ch : AutoscalingGroup) :
    (updTargetGroups e ch).2 = { ch with TargetGroups := none } := by
  unfold updTargetGroups
  split
  · rfl
  · next h =>
    simp only [ne_eq, not_not] at h
    exact (eta_TargetGroups ch h).symm

theorem updTargetGroups_fst (e : AutoscalingGroup) (ch : AutoscalingGroup) :
    (updTargetGroups e ch).1 =
      if ch.TargetGroups ≠ none ∧ (optList e.TargetGroups).length > 0 then
        sliceChunks e.AutoscalingTargetGroups attachLoadBalancerTargetGroupsMaxItems
      else [] := by
  unfold updTargetGroups
  split
  · next h =>
    split
    · next h2 =>
      rw [if_pos ⟨h, h2⟩]
    · next h2 =>
      rw [if_neg (by tauto)]
  · next h =>
    rw [if_neg (by tauto)]

theorem updMetrics_ok_shape {e : AutoscalingGroup} {r} {ch : AutoscalingGroup}
    {ms : Bool × AutoscalingGroup} (h : updMetrics e r ch = .ok ms) :
    ms.2 = { ch with Metrics := ms.2.Metrics, Granularity := ms.2.Granularity } := by
  unfold updMetrics at h
  by_cases hc : ch.Metrics ≠ none ∨ ch.Granularity ≠ none
  · rw [if_pos hc] at h
    by_cases hl : (optList e.Metrics).length ≠ 0
    · rw [if_pos hl] at h
      cases hr : r with
      | error m => rw [hr] at h; cases h
      | ok u => rw [hr] at h; cases h; rfl
    · rw [if_neg hl] at h; cases h; rfl
  · rw [if_neg hc] at h; cases h; rfl

theorem updMetrics_ok_clears {e : AutoscalingGroup} {r} {ch : AutoscalingGroup}
    {ms : Bool × AutoscalingGroup} (h : updMetrics e r ch = .ok ms)
    (hm : (optList e.Metrics).length ≠ 0) :
    ms.2.Metrics = none ∧ ms.2.Granularity = none := by
  unfold updMetrics at h
  by_cases hc : ch.Metrics ≠ none ∨ ch.Granularity ≠ none
  · rw [if_pos hc, if_pos hm] at h
    cases hr : r with
    | error m => rw [hr] at h; cases h
    | ok u => rw [hr] at h; cases h; exact ⟨rfl, rfl⟩
  · rw [if_neg hc] at h
    cases h
    rw [not_or] at hc
    have h1 : ch.Metrics = none := by have := hc.1; simpa using this
    have h2 : ch.Granularity = none := by have := hc.2; simpa using this
    exact ⟨h1, h2⟩

theorem updMetrics_ok_len0 {e : AutoscalingGroup} {r} {ch : AutoscalingGroup}
    {ms : Bool × AutoscalingGroup} (h : updMetrics e r ch = .ok ms)
    (hm : (optList e.Metrics).length = 0) : ms.2 = ch := by
  unfold updMetrics at h
  by_cases hc : ch.Metrics ≠ none ∨ ch.Granularity ≠ none
  · rw [if_pos hc, if_neg (by omega)] at h
    cases h; rfl
  · rw [if_neg hc] at h
    cases h; rfl

theorem updSuspendProcesses_ok_snd {a e : AutoscalingGroup} {r1 r2}
    {ch : AutoscalingGroup} {sp : List String × List String × AutoscalingGroup}
    (h : updSuspendProcesses a e r1 r2 ch = .ok sp) :
    sp.2.2 = { ch with SuspendProcesses := none } := by
  unfold updSuspendProcesses at h
  by_cases hc : ch.SuspendProcesses ≠ none
  · rw [if_pos hc] at h
    cases he : e.SuspendProcesses with
    | none =>
      cases ha : a.SuspendProcesses <;> rw [he, ha] at h <;> cases h
    | some eps =>
      cases ha : a.SuspendProcesses with
      | none => rw [he, ha] at h; cases h
      | some aps =>
        rw [he, ha] at h
        dsimp only at h
        repeat' split at h
        all_goals try cases h
        all_goals rfl
  · rw [if_neg hc] at h
    cases h
    simp only [ne_eq, not_not] at hc
    exact (eta_SuspendProcesses ch hc).symm

theorem updInstanceProtection_snd (e : AutoscalingGroup) (s : UpdState) :
    (updInstanceProtection e s).2 = { s.2 with InstanceProtection := none } := by
  unfold updInstanceProtection
  split
  · rfl
  · next h =>
    simp only [ne_eq, not_not] at h
    exact (eta_InstanceProtection s.2 h).symm

theorem updInstanceProtection_fst (e : AutoscalingGroup) (s : UpdState) :
    (updInstanceProtection e s).1 =
      { s.1 with NewInstancesProtectedFromScaleIn := if s.2.InstanceProtection ≠ none then
          e.InstanceProtection else s.1.NewInstancesProtectedFromScaleIn } := by
  unfold updInstanceProtection
  split <;> rfl

theorem updCapacityRebalance_snd (e : AutoscalingGroup) (s : UpdState) :
    (updCapacityRebalance e s).2 = { s.2 with CapacityRebalance := none } := by
  unfold updCapacityRebalance
  split
  · rfl
  · next h =>
    simp only [ne_eq, not_not] at h
    exact (eta_CapacityRebalance s.2 h).symm

theorem updCapacityRebalance_fst (e : AutoscalingGroup) (s : UpdState) :
    (updCapacityRebalance e s).1 =
      { s.1 with CapacityRebalance := if s.2.CapacityRebalance ≠ none then
          e.CapacityRebalance else s.1.CapacityRebalance } := by
  unfold updCapacityRebalance
  split <;> rfl

end UpdateStepLemmas

/-- Characterization of a successful update-path execution: every changes
field the renderer handles unconditionally is cleared; Metrics and
Granularity are cleared provided the desired Metrics list is non-empty;
request fields for unchanged task fields stay unset, except
MaxInstanceLifetime which is sent as an explicit 0; the target-group
attachment requests are the 10-element chunks of the desired ARNs. -/
theorem renderAWSUpdate_ok_master {a e changes : AutoscalingGroup} {env : AWSUpdateEnv}
    {log : UpdateLog} (h : AutoscalingGroup.RenderAWSUpdate a e changes env = .ok log) :
    (log.finalChanges.LaunchTemplate = none ∧
     log.finalChanges.MixedOnDemandAboveBase = none ∧
     log.finalChanges.MixedOnDemandBase = none ∧
     log.finalChanges.MixedSpotAllocationStrategy = none ∧
     log.finalChanges.MixedSpotInstancePools = none ∧
     log.finalChanges.MixedSpotMaxPrice = none ∧
     log.finalChanges.MixedInstanceOverrides = none ∧
     log.finalChanges.InstanceRequirements = none ∧
     log.finalChanges.MinSize = none ∧
     log.finalChanges.MaxSize = none ∧
     log.finalChanges.Subnets = none ∧
     log.finalChanges.MaxInstanceLifetime = none ∧
     log.finalChanges.Tags = none ∧
     log.finalChanges.LoadBalancers = none ∧
     log.finalChanges.TargetGroups = none ∧
     log.finalChanges.SuspendProcesses = none ∧
     log.finalChanges.InstanceProtection = none ∧
     log.finalChanges.CapacityRebalance = none) ∧
    ((optList e.Metrics).length ≠ 0 →
      log.finalChanges.Metrics = none ∧ log.finalChanges.Granularity = none) ∧
    ((optList e.Metrics).length = 0 →
      log.finalChanges.Metrics = changes.Metrics ∧
      log.finalChanges.Granularity = changes.Granularity) ∧
    ((changes.MinSize = none → log.request.MinSize = none) ∧
     (changes.MaxSize = none → log.request.MaxSize = none) ∧
     (changes.Subnets = none → log.request.VPCZoneIdentifier = none) ∧
     (changes.InstanceProtection = none →
       log.request.NewInstancesProtectedFromScaleIn = none) ∧
     (changes.CapacityRebalance = none → log.request.CapacityRebalance = none) ∧
     (changes.MaxInstanceLifetime = none → log.request.MaxInstanceLifetime = some 0)) ∧
    log.attachTGRequests =
      (if changes.TargetGroups ≠ none ∧ (optList e.TargetGroups).length > 0 then
        sliceChunks e.AutoscalingTargetGroups attachLoadBalancerTargetGroupsMaxItems
      else []) := by
  unfold AutoscalingGroup.RenderAWSUpdate at h
  dsimp only at h
  split at h
  · cases h
  next s1 heq1 =>
  split at h
  · cases h
  next s7 heq7 =>
  split at h
  · cases h
  next ms heqM =>
  split at h
  · cases h
  next sp heqS =>
  split at h
  · cases h
  next u heqT =>
  cases h
  have kcore : preservesCoreReq
      { AutoScalingGroupName := e.Name, MinSize := none, MaxSize := none
        VPCZoneIdentifier := none, MaxInstanceLifetime := none
        LaunchTemplate := none, MixedInstancesPolicy := none
        NewInstancesProtectedFromScaleIn := none, CapacityRebalance := none } s7.1 :=
    preservesCoreReq_trans (updLaunchTemplate_ok_core heq1)
      (preservesCoreReq_trans
        (preservesCoreReq_trans (updMixedOnDemandAboveBase_core e s1)
          (preservesCoreReq_trans (updMixedOnDemandBase_core e _)
            (preservesCoreReq_trans (updMixedSpotAllocationStrategy_core e _)
              (preservesCoreReq_trans (updMixedSpotInstancePools_core e _)
                (updMixedSpotMaxPrice_core e _)))))
        (updOverrides_ok_core heq7))
  have kmin : s7.1.MinSize = none := kcore.2.1
  have kmax : s7.1.MaxSize = none := kcore.2.2.1
  have kvpc : s7.1.VPCZoneIdentifier = none := kcore.2.2.2.1
  have klife : s7.1.MaxInstanceLifetime = none := kcore.2.2.2.2.1
  have kprot : s7.1.NewInstancesProtectedFromScaleIn = none := kcore.2.2.2.2.2.1
  have kcap : s7.1.CapacityRebalance = none := kcore.2.2.2.2.2.2
  refine ⟨⟨?_, ?_, ?_, ?_, ?_, ?_, ?_, ?_, ?_, ?_, ?_, ?_, ?_, ?_, ?_, ?_, ?_, ?_⟩,
    ?_, ?_, ⟨?_, ?_, ?_, ?_, ?_, ?_⟩, ?_⟩
  -- the 18 unconditionally-cleared changes fields
  case _ | _ | _ | _ | _ | _ | _ | _ | _ | _ | _ | _ | _ | _ | _ | _ | _ | _ =>
    simp only [updCapacityRebalance_snd, updInstanceProtection_snd,
      updSuspendProcesses_ok_snd heqS]
    try rw [updMetrics_ok_shape heqM]
    try simp only [updTargetGroups_snd, updLoadBalancers_snd, updTags_snd,
      updMaxInstanceLifetime_snd, updSubnets_snd, updMaxSize_snd, updMinSize_snd,
      updOverrides_ok_snd heq7, updMixedSpotMaxPrice_snd, updMixedSpotInstancePools_snd,
      updMixedSpotAllocationStrategy_snd, updMixedOnDemandBase_snd,
      updMixedOnDemandAboveBase_snd, updLaunchTemplate_ok_snd heq1]
  -- Metrics and Granularity cleared while desired metrics are non-empty
  case _ =>
    intro hlen
    obtain ⟨hm, hg⟩ := updMetrics_ok_clears heqM hlen
    constructor <;>
      simp only [updCapacityRebalance_snd, updInstanceProtection_snd,
        updSuspendProcesses_ok_snd heqS, hm, hg]
  -- Metrics and Granularity retained when the desired metrics list is empty
  case _ =>
    intro hlen
    have hms := updMetrics_ok_len0 heqM hlen
    constructor <;>
      simp only [updCapacityRebalance_snd, updInstanceProtection_snd,
        updSuspendProcesses_ok_snd heqS, hms, updTargetGroups_snd, updLoadBalancers_snd,
        updTags_snd, updMaxInstanceLifetime_snd, updSubnets_snd, updMaxSize_snd,
        updMinSize_snd, updOverrides_ok_snd heq7, updMixedSpotMaxPrice_snd,
        updMixedSpotInstancePools_snd, updMixedSpotAllocationStrategy_snd,
        updMixedOnDemandBase_snd, updMixedOnDemandAboveBase_snd,
        updLaunchTemplate_ok_snd heq1]
  -- request.MinSize
  case _ =>
    intro hx
    simp only [updCapacityRebalance_fst, updInstanceProtection_fst,
      updMaxInstanceLifetime_fst, updSubnets_fst, updMaxSize_fst, updMinSize_fst,
      updMinSize_snd, updMaxSize_snd, updSubnets_snd,
      updOverrides_ok_snd heq7, updMixedSpotMaxPrice_snd, updMixedSpotInstancePools_snd,
      updMixedSpotAllocationStrategy_snd, updMixedOnDemandBase_snd,
      updMixedOnDemandAboveBase_snd, updLaunchTemplate_ok_snd heq1, hx]
    simp [kmin]
  -- request.MaxSize
  case _ =>
    intro hx
    simp only [updCapacityRebalance_fst, updInstanceProtection_fst,
      updMaxInstanceLifetime_fst, updSubnets_fst, updMaxSize_fst, updMinSize_fst,
      updMinSize_snd, updMaxSize_snd, updSubnets_snd,
      updOverrides_ok_snd heq7, updMixedSpotMaxPrice_snd, updMixedSpotInstancePools_snd,
      updMixedSpotAllocationStrategy_snd, updMixedOnDemandBase_snd,
      updMixedOnDemandAboveBase_snd, updLaunchTemplate_ok_snd heq1, hx]
    simp [kmax]
  -- request.VPCZoneIdentifier
  case _ =>
    intro hx
    simp only [updCapacityRebalance_fst, updInstanceProtection_fst,
      updMaxInstanceLifetime_fst, updSubnets_fst, updMaxSize_fst, updMinSize_fst,
      updMinSize_snd, updMaxSize_snd, updSubnets_snd,
      updOverrides_ok_snd heq7, updMixedSpotMaxPrice_snd, updMixedSpotInstancePools_snd,
      updMixedSpotAllocationStrategy_snd, updMixedOnDemandBase_snd,
      updMixedOnDemandAboveBase_snd, updLaunchTemplate_ok_snd heq1, hx]
    simp [kvpc]
  -- request.NewInstancesProtectedFromScaleIn
  case _ =>
    intro hx
    simp only [updCapacityRebalance_fst, updInstanceProtection_fst,
      updInstanceProtection_snd, updSuspendProcesses_ok_snd heqS]
    rw [updMetrics_ok_shape heqM]
    simp only [updTargetGroups_snd, updLoadBalancers_snd, updTags_snd,
      updMaxInstanceLifetime_snd, updSubnets_snd, updMaxSize_snd, updMinSize_snd,
      updMaxInstanceLifetime_fst, updSubnets_fst, updMaxSize_fst, updMinSize_fst,
      updOverrides_ok_snd heq7, updMixedSpotMaxPrice_snd, updMixedSpotInstancePools_snd,
      updMixedSpotAllocationStrategy_snd, updMixedOnDemandBase_snd,
      updMixedOnDemandAboveBase_snd, updLaunchTemplate_ok_snd heq1, hx]
    simp [kprot]
  -- request.CapacityRebalance
  case _ =>
    intro hx
    simp only [updCapacityRebalance_fst, updInstanceProtection_fst,
      updInstanceProtection_snd, updCapacityRebalance_snd,
      updSuspendProcesses_ok_snd heqS]
    rw [updMetrics_ok_shape heqM]
    simp only [updTargetGroups_snd, updLoadBalancers_snd, updTags_snd,
      updMaxInstanceLifetime_snd, updSubnets_snd, updMaxSize_snd, updMinSize_snd,
      updMaxInstanceLifetime_fst, updSubnets_fst, updMaxSize_fst, updMinSize_fst,
      updOverrides_ok_snd heq7, updMixedSpotMaxPrice_snd, updMixedSpotInstancePools_snd,
      updMixedSpotAllocationStrategy_snd, updMixedOnDemandBase_snd,
      updMixedOnDemandAboveBase_snd, updLaunchTemplate_ok_snd heq1, hx]
    simp [kcap]
  -- request.MaxInstanceLifetime sent as 0 when unchanged
  case _ =>
    intro hx
    simp only [updCapacityRebalance_fst, updInstanceProtection_fst,
      updMaxInstanceLifetime_fst, updSubnets_fst, updMaxSize_fst, updMinSize_fst,
      updMinSize_snd, updMaxSize_snd, updSubnets_snd,
      updOverrides_ok_snd heq7, updMixedSpotMaxPrice_snd, updMixedSpotInstancePools_snd,
      updMixedSpotAllocationStrategy_snd, updMixedOnDemandBase_snd,
      updMixedOnDemandAboveBase_snd, updLaunchTemplate_ok_snd heq1, hx]
    simp
  -- attachTGRequests
  case _ =>
    simp only [updTargetGroups_fst, updLoadBalancers_snd, updTags_snd,
      updMaxInstanceLifetime_snd, updSubnets_snd, updMaxSize_snd, updMinSize_snd,
      updOverrides_ok_snd heq7, updMixedSpotMaxPrice_snd, updMixedSpotInstancePools_snd,
      updMixedSpotAllocationStrategy_snd, updMixedOnDemandBase_snd,
      updMixedOnDemandAboveBase_snd, updLaunchTemplate_ok_snd heq1]

/-! ## patchCRMPolicy lemmas -/

theorem patchCRMBindings_cons_cond (m r : String) (b : Binding) (rest : List Binding)
    (hc : b.hasCondition = true) :
    patchCRMBindings m r (b :: rest) =
      ((patchCRMBindings m r rest).1, b :: (patchCRMBindings m r rest).2) := by
  simp [patchCRMBindings, hc]

theorem patchCRMBindings_cons_role (m r : String) (b : Binding) (rest : List Binding)
    (hc : b.hasCondition = false) (hr : b.Role ≠ r) :
    patchCRMBindings m r (b :: rest) =
      ((patchCRMBindings m r rest).1, b :: (patchCRMBindings m r rest).2) := by
  simp [patchCRMBindings, hc, hr]

theorem patchCRMBindings_cons_mem (m r : String) (b : Binding) (rest : List Binding)
    (hc : b.hasCondition = false) (hr : b.Role = r) (hm : m ∈ b.Members) :
    patchCRMBindings m r (b :: rest) = (false, b :: rest) := by
  simp [patchCRMBindings, hc, hr, hm]

theorem patchCRMBindings_cons_add (m r : String) (b : Binding) (rest : List Binding)
    (hc : b.hasCondition = false) (hr : b.Role = r) (hm : m ∉ b.Members) :
    patchCRMBindings m r (b :: rest) =
      (true, { b with Members := b.Members ++ [m] } :: rest) := by
  simp [patchCRMBindings, hc, hr, hm]

theorem patchCRMBindings_true_mem (m r : String) (bs : List Binding)
    (h : (patchCRMBindings m r bs).1 = true) :
    ∃ b ∈ (patchCRMBindings m r bs).2,
      b.hasCondition = false ∧ b.Role = r ∧ m ∈ b.Members := by
  induction bs with
  | nil =>
    refine ⟨⟨r, [m], false⟩, ?_, rfl, rfl, by simp⟩
    simp [patchCRMBindings]
  | cons b rest ih =>
    cases hcb : b.hasCondition with
    | true =>
      simp only [patchCRMBindings_cons_cond m r b rest hcb] at h ⊢
      obtain ⟨bx, hbx, hp⟩ := ih h
      exact ⟨bx, List.mem_cons_of_mem _ hbx, hp⟩
    | false =>
      by_cases hrr : b.Role = r
      · by_cases hmm : m ∈ b.Members
        · simp only [patchCRMBindings_cons_mem m r b rest hcb hrr hmm] at h
          exact absurd h (by simp)
        · simp only [patchCRMBindings_cons_add m r b rest hcb hrr hmm]
          exact ⟨{ b with Members := b.Members ++ [m] }, by simp, hcb, hrr, by simp⟩
      · simp only [patchCRMBindings_cons_role m r b rest hcb hrr] at h ⊢
        obtain ⟨bx, hbx, hp⟩ := ih h
        exact ⟨bx, List.mem_cons_of_mem _ hbx, hp⟩

theorem patchCRMBindings_true_idem (m r : String) (bs : List Binding)
    (h : (patchCRMBindings m r bs).1 = true) :
    patchCRMBindings m r (patchCRMBindings m r bs).2 =
      (false, (patchCRMBindings m r bs).2) := by
  induction bs with
  | nil =>
    show patchCRMBindings m r [⟨r, [m], false⟩] = (false, [⟨r, [m], false⟩])
    exact patchCRMBindings_cons_mem m r ⟨r, [m], false⟩ [] rfl rfl (by simp)
  | cons b rest ih =>
    cases hcb : b.hasCondition with
    | true =>
      simp only [patchCRMBindings_cons_cond m r b rest hcb] at h ⊢
      rw [patchCRMBindings_cons_cond m r b _ hcb, ih h]
    | false =>
      by_cases hrr : b.Role = r
      · by_cases hmm : m ∈ b.Members
        · simp only [patchCRMBindings_cons_mem m r b rest hcb hrr hmm] at h
          exact absurd h (by simp)
        · simp only [patchCRMBindings_cons_add m r b rest hcb hrr hmm]
          exact patchCRMBindings_cons_mem m r _ rest hcb hrr (by simp)
      · simp only [patchCRMBindings_cons_role m r b rest hcb hrr] at h ⊢
        rw [patchCRMBindings_cons_role m r b _ hcb hrr, ih h]

theorem patchCRMPolicy_true_memberBound {p : CRMPolicy} {m r : String}
    (h : (patchCRMPolicy p m r).1 = true) :
    (patchCRMPolicy p m r).2.memberBound m r := by
  unfold patchCRMPolicy CRMPolicy.memberBound at *
  exact patchCRMBindings_true_mem m r p.Bindings h

theorem patchCRMPolicy_true_idem {p : CRMPolicy} {m r : String}
    (h : (patchCRMPolicy p m r).1 = true) :
    patchCRMPolicy (patchCRMPolicy p m r).2 m r = (false, (patchCRMPolicy p m r).2) := by
  unfold patchCRMPolicy at *
  have := patchCRMBindings_true_idem m r p.Bindings h
  simp only [this]

/-! ## Claim theorems (GCE) -/

/-- C2 counterexample: the claim says AutoscalingGroup.CheckChanges with nil
actual and unset Name returns RequiredField("Name"); on the code, the create
path (actual nil) performs no check at all and returns nil. -/
theorem claim_C2_counterexample :
    emptyASG.Name = none ∧
    AutoscalingGroup.CheckChanges none emptyASG none = .ok () := ⟨rfl, rfl⟩

/-- C2 (amended): ProjectIAMBinding.CheckChanges returns RequiredField
naming the exact missing field (regardless of actual, in the source order
Project, MemberServiceAccount, MemberServiceAccount.Email, Role);
AutoscalingGroup.CheckChanges performs no check when actual is nil and
returns RequiredField("Name") exactly when actual is non-nil and Name is
unset: with actual non-nil and Name set it returns ok. -/
theorem claim_C2_amended (a : Option ProjectIAMBinding) (ch : Option ProjectIAMBinding)
    (e : ProjectIAMBinding) (aA eA : AutoscalingGroup) (chA : Option AutoscalingGroup) :
    (valueOf e.Project = "" →
      ProjectIAMBinding.CheckChanges a e ch = .error (.RequiredField "Project")) ∧
    (valueOf e.Project ≠ "" → e.MemberServiceAccount = none →
      ProjectIAMBinding.CheckChanges a e ch = .error (.RequiredField "MemberServiceAccount")) ∧
    (∀ sa, valueOf e.Project ≠ "" → e.MemberServiceAccount = some sa →
      valueOf sa.Email = "" →
      ProjectIAMBinding.CheckChanges a e ch = .error (.RequiredField "MemberServiceAccount.Email")) ∧
    (∀ sa, valueOf e.Project ≠ "" → e.MemberServiceAccount = some sa →
      valueOf sa.Email ≠ "" → valueOf e.Role = "" →
      ProjectIAMBinding.CheckChanges a e ch = .error (.RequiredField "Role")) ∧
    (AutoscalingGroup.CheckChanges none eA chA = .ok ()) ∧
    (AutoscalingGroup.CheckChanges (some aA) eA chA = .error (.RequiredField "Name") ↔
      eA.Name = none) ∧
    (eA.Name ≠ none → AutoscalingGroup.CheckChanges (some aA) eA chA = .ok ()) := by
  refine ⟨?_, ?_, ?_, ?_, rfl, ?_, ?_⟩
  · intro hp
    simp [ProjectIAMBinding.CheckChanges, hp]
  · intro hp hsa
    simp [ProjectIAMBinding.CheckChanges, hp, hsa]
  · intro sa hp hsa he
    simp [ProjectIAMBinding.CheckChanges, hp, hsa, he]
  · intro sa hp hsa he hr
    simp [ProjectIAMBinding.CheckChanges, hp, hsa, he, hr]
  · constructor
    · intro h
      by_contra hn
      simp [AutoscalingGroup.CheckChanges, hn] at h
    · intro hn
      simp [AutoscalingGroup.CheckChanges, hn]
  · intro hn
    simp [AutoscalingGroup.CheckChanges, hn]

/-- C2 witness: each RequiredField branch and the two AutoscalingGroup
behaviors exercised at concrete tasks. -/
theorem claim_C2_amended_witness :
    ProjectIAMBinding.CheckChanges none
      { Name := some "b", Lifecycle := "sync", Project := none,
        MemberServiceAccount := some { Email := some "x@p.iam" }, Role := some "r" } none =
      .error (.RequiredField "Project") ∧
    ProjectIAMBinding.CheckChanges none
      { Name := some "b", Lifecycle := "sync", Project := some "proj",
        MemberServiceAccount := none, Role := some "r" } none =
      .error (.RequiredField "MemberServiceAccount") ∧
    ProjectIAMBinding.CheckChanges none
      { Name := some "b", Lifecycle := "sync", Project := some "proj",
        MemberServiceAccount := some { Email := none }, Role := some "r" } none =
      .error (.RequiredField "MemberServiceAccount.Email") ∧
    ProjectIAMBinding.CheckChanges none
      { Name := some "b", Lifecycle := "sync", Project := some "proj",
        MemberServiceAccount := some { Email := some "x@p.iam" }, Role := none } none =
      .error (.RequiredField "Role") ∧
    AutoscalingGroup.CheckChanges none emptyASG none = .ok () ∧
    AutoscalingGroup.CheckChanges (some emptyASG) emptyASG none =
      .error (.RequiredField "Name") ∧
    AutoscalingGroup.CheckChanges (some emptyASG)
      { emptyASG with Name := some "nodes" } none = .ok () := by
  have h := claim_C2_amended none none
    { Name := some "b", Lifecycle := "sync", Project := none,
      MemberServiceAccount := some { Email := some "x@p.iam" }, Role := some "r" }
    emptyASG emptyASG none
  refine ⟨h.1 (by decide), ?_, ?_, ?_, ?_, ?_, ?_⟩
  · exact (claim_C2_amended none none
      { Name := some "b", Lifecycle := "sync", Project := some "proj",
        MemberServiceAccount := none, Role := some "r" }
      emptyASG emptyASG none).2.1 (by decide) rfl
  · exact (claim_C2_amended none none
      { Name := some "b", Lifecycle := "sync", Project := some "proj",
        MemberServiceAccount := some { Email := none }, Role := some "r" }
      emptyASG emptyASG none).2.2.1 { Email := none } (by decide) rfl (by decide)
  · exact (claim_C2_amended none none
      { Name := some "b", Lifecycle := "sync", Project := some "proj",
        MemberServiceAccount := some { Email := some "x@p.iam" }, Role := none }
      emptyASG emptyASG none).2.2.2.1 { Email := some "x@p.iam" } (by decide) rfl
      (by decide) (by decide)
  · exact (claim_C2_amended none none
      { Name := some "b", Lifecycle := "sync", Project := some "p",
        MemberServiceAccount := none, Role := none }
      emptyASG emptyASG none).2.2.2.2.1
  · exact ((claim_C2_amended none none
      { Name := some "b", Lifecycle := "sync", Project := some "p",
        MemberServiceAccount := none, Role := none }
      emptyASG emptyASG none).2.2.2.2.2.1).mpr rfl
  · exact (claim_C2_amended none none
      { Name := some "b", Lifecycle := "sync", Project := some "p",
        MemberServiceAccount := none, Role := none }
      emptyASG { emptyASG with Name := some "nodes" } none).2.2.2.2.2.2 (by decide)

/-- C5: RenderGCE re-reads the policy and resolves a concurrent external
change by warn-and-continue: when the re-read policy already holds the member
(patchCRMPolicy returns false) it returns nil without calling SetIamPolicy,
and it calls SetIamPolicy (with the patched policy) exactly when
patchCRMPolicy reports a modification. -/
theorem claim_C5 (e : ProjectIAMBinding) (sa : ServiceAccount) (p : CRMPolicy)
    (setResult : Except String Unit) (hsa : e.MemberServiceAccount = some sa) :
    ((patchCRMPolicy p (ProjectIAMBinding.memberString sa) (valueOf e.Role)).1 = false →
      e.RenderGCE (.ok p) setResult = .warnNoChange) ∧
    ((patchCRMPolicy p (ProjectIAMBinding.memberString sa) (valueOf e.Role)).1 = true →
      e.RenderGCE (.ok p) setResult =
        .setCalled (patchCRMPolicy p (ProjectIAMBinding.memberString sa) (valueOf e.Role)).2
          setResult) ∧
    (∀ q res, e.RenderGCE (.ok p) setResult = .setCalled q res →
      (patchCRMPolicy p (ProjectIAMBinding.memberString sa) (valueOf e.Role)).1 = true ∧
      q = (patchCRMPolicy p (ProjectIAMBinding.memberString sa) (valueOf e.Role)).2 ∧
      res = setResult) := by
  unfold ProjectIAMBinding.RenderGCE
  rw [hsa]
  refine ⟨?_, ?_, ?_⟩
  · intro hch
    simp [hch]
  · intro hch
    simp [hch]
  · intro q res h
    by_cases hch : (patchCRMPolicy p (ProjectIAMBinding.memberString sa) (valueOf e.Role)).1 = true
    · simp only [hch, if_true] at h
      cases h
      exact ⟨hch, rfl, rfl⟩
    · simp only [Bool.not_eq_true] at hch
      simp [hch] at h

/-- C5 witness: a policy missing the member triggers the SetIamPolicy call;
the theorem applied at a concrete task and policy. -/
theorem claim_C5_witness :
    ProjectIAMBinding.RenderGCE
      { Name := some "b", Lifecycle := "sync", Project := some "proj",
        MemberServiceAccount := some { Email := some "sa@proj.iam" }, Role := some "roles/owner" }
      (.ok ⟨[]⟩) (.ok ()) =
      .setCalled ⟨[⟨"roles/owner", ["serviceAccount:sa@proj.iam"], false⟩]⟩ (.ok ()) := by
  have h := (claim_C5
    { Name := some "b", Lifecycle := "sync", Project := some "proj",
      MemberServiceAccount := some { Email := some "sa@proj.iam" }, Role := some "roles/owner" }
    { Email := some "sa@proj.iam" } ⟨[]⟩ (.ok ()) rfl).2.1 (by decide)
  exact h.trans (by decide)

/-- C6: patchCRMPolicy is idempotent: a call returning true leaves the member
present in a condition-free binding for the role, and an immediate second
call returns false leaving the policy unchanged; consequently, after a
successful render, a second pass finds the binding via Find and reports a
snapshot equal to the desired task (no further change). -/
theorem claim_C6 (p : CRMPolicy) (member role : String) (e : ProjectIAMBinding)
    (sa : ServiceAccount) (h : (patchCRMPolicy p member role).1 = true) :
    (patchCRMPolicy p member role).2.memberBound member role ∧
    patchCRMPolicy (patchCRMPolicy p member role).2 member role =
      (false, (patchCRMPolicy p member role).2) ∧
    (e.MemberServiceAccount = some sa →
      ∀ q : CRMPolicy,
        (patchCRMPolicy q (ProjectIAMBinding.memberString sa) (valueOf e.Role)).1 = true →
        e.Find (.ok (patchCRMPolicy q (ProjectIAMBinding.memberString sa) (valueOf e.Role)).2) =
          .ok (some { Name := e.Name, Lifecycle := e.Lifecycle, Project := e.Project,
                      MemberServiceAccount := e.MemberServiceAccount, Role := e.Role })) := by
  refine ⟨patchCRMPolicy_true_memberBound h, patchCRMPolicy_true_idem h, ?_⟩
  intro hsa q hq
  unfold ProjectIAMBinding.Find
  rw [hsa]
  have hidem := patchCRMPolicy_true_idem hq
  have : (patchCRMPolicy
      (patchCRMPolicy q (ProjectIAMBinding.memberString sa) (valueOf e.Role)).2
      (ProjectIAMBinding.memberString sa) (valueOf e.Role)).1 = false := by
    rw [hidem]
  simp [this]

/-- C6 witness: a concrete policy where the patch adds the binding; both the
idempotence facts and the second-pass Find applied there. -/
theorem claim_C6_witness :
    (patchCRMPolicy ⟨[]⟩ "serviceAccount:sa@proj.iam" "roles/owner").2.memberBound
      "serviceAccount:sa@proj.iam" "roles/owner" ∧
    patchCRMPolicy (patchCRMPolicy ⟨[]⟩ "serviceAccount:sa@proj.iam" "roles/owner").2
      "serviceAccount:sa@proj.iam" "roles/owner" =
      (false, (patchCRMPolicy ⟨[]⟩ "serviceAccount:sa@proj.iam" "roles/owner").2) := by
  have h := claim_C6 ⟨[]⟩ "serviceAccount:sa@proj.iam" "roles/owner"
    { Name := some "b", Lifecycle := "sync", Project := some "proj",
      MemberServiceAccount := some { Email := some "sa@proj.iam" }, Role := some "roles/owner" }
    { Email := some "sa@proj.iam" } (by decide)
  exact ⟨h.1, h.2.1⟩

/-! ## AutoscalingGroup.Find lemmas -/

theorem mergeSort_byKey_pairwise {α : Type} (key : α → String) (l : List α) :
    (l.mergeSort (fun a b => decide (key a ≤ key b))).Pairwise
      (fun a b => key a ≤ key b) := by
  have htrans : ∀ a b c : α, (fun a b => decide (key a ≤ key b)) a b →
      (fun a b => decide (key a ≤ key b)) b c →
      (fun a b => decide (key a ≤ key b)) a c := by
    intro a b c h1 h2
    simp only [decide_eq_true_eq] at *
    exact le_trans h1 h2
  have htot : ∀ a b : α, ((fun a b => decide (key a ≤ key b)) a b ||
      (fun a b => decide (key a ≤ key b)) b a) = true := by
    intro a b
    simpa using le_total (key a) (key b)
  have h := List.sorted_mergeSort htrans htot l
  exact h.imp (fun hab => by simpa using hab)

theorem sortStrings_pairwise (l : List String) :
    (sortStrings l).Pairwise (· ≤ ·) := by
  have h := mergeSort_byKey_pairwise (fun s : String => s) l
  exact h

theorem sortLoadBalancersByName_pairwise (l : List ClassicLoadBalancer) :
    (sortLoadBalancersByName l).Pairwise (fun x y => valueOf x.Name ≤ valueOf y.Name) :=
  mergeSort_byKey_pairwise (fun x => valueOf x.Name) l

theorem sortTargetGroupsByName_pairwise (l : List TargetGroup) :
    (sortTargetGroupsByName l).Pairwise (fun x y => valueOf x.Name ≤ valueOf y.Name) :=
  mergeSort_byKey_pairwise (fun x => valueOf x.Name) l

theorem findAutoscalingGroup_ok_some {resp : Except String (List CloudASG)} {name : String}
    {g : CloudASG} (h : findAutoscalingGroup resp name = .ok (some g)) :
    g.Status = none ∧ valueOf g.AutoScalingGroupName = name := by
  unfold findAutoscalingGroup at h
  cases resp with
  | error msg => cases h
  | ok groups =>
    dsimp only at h
    cases hfil : groups.filter
        (fun g => g.Status.isNone && (valueOf g.AutoScalingGroupName = name : Bool)) with
    | nil =>
      rw [hfil] at h
      simp at h
    | cons x rest =>
      cases rest with
      | nil =>
        rw [hfil] at h
        simp only [] at h
        cases h
        have hmem : g ∈ groups.filter
            (fun g => g.Status.isNone && (valueOf g.AutoScalingGroupName = name : Bool)) := by
          rw [hfil]
          exact List.mem_singleton.mpr rfl
        have hp := List.of_mem_filter hmem
        simp only [Bool.and_eq_true, Option.isNone_iff_eq_none, decide_eq_true_eq] at hp
        exact hp
      | cons y rest2 =>
        rw [hfil] at h
        simp at h

theorem findAutoscalingGroup_ok_none_of {groups : List CloudASG} {name : String}
    (h : ∀ g ∈ groups, g.Status = none → valueOf g.AutoScalingGroupName ≠ name) :
    findAutoscalingGroup (.ok groups) name = .ok none := by
  unfold findAutoscalingGroup
  have hfil : groups.filter
      (fun g => g.Status.isNone && (valueOf g.AutoScalingGroupName = name : Bool)) = [] := by
    rw [List.filter_eq_nil_iff]
    intro g hg
    simp only [Bool.and_eq_true, Option.isNone_iff_eq_none, decide_eq_true_eq, not_and]
    intro hst
    exact h g hg hst
  simp only [hfil]

theorem AutoscalingGroup.Find_absent {e : AutoscalingGroup} {env : AWSCloudEnv}
    (hnone : findAutoscalingGroup env.describeResult (valueOf e.Name) = .ok none) :
    e.Find env = .ok (none, e.deletions) := by
  unfold AutoscalingGroup.Find
  rw [hnone]

theorem filterMap_tgResults (tgs : List TargetGroup) (nm : String) (arns : List String) :
    (arns.map (fun arn =>
      match lookupByARN tgs arn with
      | some tg => (tg, (none : Option DeleteTGAttachment))
      | none => (({ Name := none, ARN := some arn, info := none } : TargetGroup),
                 some (buildDeleteAutoscalingTargetGroupAttachment nm arn)))).filterMap
        Prod.snd =
      (arns.filter (fun arn => (lookupByARN tgs arn).isNone)).map
        (fun arn => buildDeleteAutoscalingTargetGroupAttachment nm arn) := by
  induction arns with
  | nil => rfl
  | cons a rest ih =>
    cases hl : lookupByARN tgs a <;> simp [hl, ih]

/-- Structural characterization of a successful Find that returned a
snapshot. -/
theorem AutoscalingGroup.Find_ok_some {e : AutoscalingGroup} {env : AWSCloudEnv}
    {actual : AutoscalingGroup} {ds : List DeleteTGAttachment}
    (h : e.Find env = .ok (some actual, ds)) :
    ∃ g, findAutoscalingGroup env.describeResult (valueOf e.Name) = .ok (some g) ∧
      actual.Name = g.AutoScalingGroupName ∧
      actual.Lifecycle = e.Lifecycle ∧
      (actual.Metrics = none ∨ ∃ l, actual.Metrics = some (sortStrings l)) ∧
      (∃ lbs, actual.LoadBalancers = some (sortLoadBalancersByName lbs)) ∧
      (∃ tgs, actual.TargetGroups = some (sortTargetGroupsByName tgs)) ∧
      (∃ subnets0, actual.Subnets =
        (if subnetSlicesEqualIgnoreOrder (optList subnets0) (optList e.Subnets)
         then e.Subnets else subnets0)) ∧
      ds = e.deletions ++ (g.TargetGroupARNs.filter
          (fun arn => (lookupByARN (optList e.TargetGroups) arn).isNone)).map
          (fun arn => buildDeleteAutoscalingTargetGroupAttachment
            (valueOf g.AutoScalingGroupName) arn) := by
  unfold AutoscalingGroup.Find at h
  split at h
  · cases h
  · simp at h
  next g heq =>
    dsimp only at h
    split at h
    · cases h
    next lbs1 heqLB =>
      split at h
      · cases h
      next processes heqSP =>
        cases h
        refine ⟨g, heq, rfl, rfl, ?_, ⟨_, rfl⟩, ⟨_, rfl⟩, ⟨_, rfl⟩, ?_⟩
        · by_cases hm : (g.EnabledMetrics.map fun em => valueOf em.Metric).isEmpty
          · exact Or.inl (by simp [hm])
          · exact Or.inr ⟨g.EnabledMetrics.map fun em => valueOf em.Metric, by simp [hm]⟩
        · exact congrArg (e.deletions ++ ·)
            (filterMap_tgResults (optList e.TargetGroups)
              (valueOf g.AutoScalingGroupName) g.TargetGroupARNs)

/-! ## Test fixtures for witnesses -/

/-- A cloud group named "nodes" with one attached target group ARN. -/
def testCloudASG : CloudASG :=
  { AutoScalingGroupName := some "nodes", Status := none, MinSize := some 1,
    MaxSize := some 3, MaxInstanceLifetime := none, LoadBalancerNames := [],
    TargetGroupARNs := ["arn:tg1"], VPCZoneIdentifier := none,
    EnabledMetrics := [], SuspendedProcesses := [], Tags := [],
    LaunchTemplate := none, MixedInstancesPolicy := none,
    NewInstancesProtectedFromScaleIn := none }

/-- An environment in which the group "nodes" exists. -/
def testEnvFound : AWSCloudEnv :=
  { describeResult := .ok [testCloudASG]
    findELBByNameTag := fun _ => .ok none
    findInstanceRequirements := fun _ => none }

/-- An environment with no groups at all. -/
def testEnvAbsent : AWSCloudEnv :=
  { describeResult := .ok []
    findELBByNameTag := fun _ => .ok none
    findInstanceRequirements := fun _ => none }

/-- The desired task whose name is "nodes". -/
def testASG : AutoscalingGroup := { emptyASG with Name := some "nodes" }

/-- The snapshot testASG.Find produces against testEnvFound. -/
def testActual : AutoscalingGroup :=
  { emptyASG with
    Name := some "nodes", MinSize := some 1, MaxSize := some 3
    MaxInstanceLifetime := some 0, LoadBalancers := some []
    SuspendProcesses := some []
    TargetGroups := some [{ Name := none, ARN := some "arn:tg1", info := none }] }

/-- A concrete ProjectIAMBinding task. -/
def testPIB : ProjectIAMBinding :=
  { Name := some "b", Lifecycle := "sync", Project := some "proj"
    MemberServiceAccount := some { Email := some "sa@proj.iam" }
    Role := some "roles/owner" }

/-- A policy already granting the member the role, condition-free. -/
def testPolicyBound : CRMPolicy :=
  ⟨[⟨"roles/owner", ["serviceAccount:sa@proj.iam"], false⟩]⟩

/-! ## Claim theorems (Find) -/

/-- C1: every Find returns nil actual and nil error when the resource is
absent (IAM policy not found, no condition-free binding holding the member,
or no matching AutoScalingGroup), and a returned snapshot carries Name and
Lifecycle from the desired task (for the ASG, the name comes from the cloud
group, whose name provably equals the desired name). -/
theorem claim_C1 (e : ProjectIAMBinding) (sa : ServiceAccount) (p : CRMPolicy)
    (easg : AutoscalingGroup) (env : AWSCloudEnv) :
    (e.MemberServiceAccount = some sa →
      (e.Find .notFound = .ok none) ∧
      ((patchCRMPolicy p (ProjectIAMBinding.memberString sa) (valueOf e.Role)).1 = true →
        e.Find (.ok p) = .ok none) ∧
      (∀ actual, e.Find (.ok p) = .ok (some actual) →
        actual.Name = e.Name ∧ actual.Lifecycle = e.Lifecycle)) ∧
    (∀ groups, env.describeResult = .ok groups →
      (∀ g ∈ groups, g.Status = none → valueOf g.AutoScalingGroupName ≠ valueOf easg.Name) →
      easg.Find env = .ok (none, easg.deletions)) ∧
    (∀ actual ds, easg.Find env = .ok (some actual, ds) →
      valueOf actual.Name = valueOf easg.Name ∧ actual.Lifecycle = easg.Lifecycle) := by
  refine ⟨?_, ?_, ?_⟩
  · intro hsa
    refine ⟨?_, ?_, ?_⟩
    · unfold ProjectIAMBinding.Find
      rw [hsa]
    · intro hch
      unfold ProjectIAMBinding.Find
      rw [hsa]
      simp [hch]
    · intro actual hF
      unfold ProjectIAMBinding.Find at hF
      rw [hsa] at hF
      by_cases hch :
          (patchCRMPolicy p (ProjectIAMBinding.memberString sa) (valueOf e.Role)).1 = true
      · simp [hch] at hF
      · simp only [Bool.not_eq_true] at hch
        simp only [hch, Bool.false_eq_true, if_false] at hF
        cases hF
        exact ⟨rfl, rfl⟩
  · intro groups hresp habs
    apply AutoscalingGroup.Find_absent
    rw [hresp]
    exact findAutoscalingGroup_ok_none_of habs
  · intro actual ds hF
    obtain ⟨g, hg, hname, hlife, _⟩ := AutoscalingGroup.Find_ok_some hF
    have hgn := findAutoscalingGroup_ok_some hg
    rw [hname]
    exact ⟨hgn.2, hlife⟩

unseal List.merge List.mergeSort in
/-- C1 witness: the theorem applied at concrete tasks, policies and cloud
responses, each hypothesis discharged by computation. -/
theorem claim_C1_witness :
    ProjectIAMBinding.Find testPIB .notFound = .ok none ∧
    ProjectIAMBinding.Find testPIB (.ok ⟨[]⟩) = .ok none ∧
    (testActual.Name = testASG.Name ∧ testActual.Lifecycle = testASG.Lifecycle) ∧
    testASG.Find testEnvAbsent = .ok (none, testASG.deletions) ∧
    (valueOf testActual.Name = valueOf testASG.Name ∧
      testActual.Lifecycle = testASG.Lifecycle) := by
  have h1 := (claim_C1 testPIB { Email := some "sa@proj.iam" } ⟨[]⟩ testASG testEnvAbsent).1 rfl
  have h2 := (claim_C1 testPIB { Email := some "sa@proj.iam" } ⟨[]⟩ testASG testEnvAbsent).2.1
    [] rfl (by intro g hg; cases hg)
  have h3 := (claim_C1 testPIB { Email := some "sa@proj.iam" } ⟨[]⟩ testASG testEnvFound).2.2
    testActual [⟨"nodes", "arn:tg1"⟩] (by decide)
  have h4 := (claim_C1 testPIB { Email := some "sa@proj.iam" } testPolicyBound testASG
    testEnvFound).1 rfl
  refine ⟨h1.1, h1.2.1 (by decide), ?_, h2, h3⟩
  have h5 := h4.2.2 { testPIB with Lifecycle := "sync" } (by decide)
  exact ⟨by decide, by decide⟩

/-- C8: set-like fields are canonicalized: Normalize sorts the desired
Metrics; Find returns the snapshot with Metrics sorted, LoadBalancers and
TargetGroups sorted by name (a stable merge sort), and the Subnets slice
replaced by the desired one whenever both contain the same subnets ignoring
order. -/
theorem claim_C8 (e0 : AutoscalingGroup)
    (addTags : Option String → Option (List (String × String)) →
      Option (List (String × String)))
    (e : AutoscalingGroup) (env : AWSCloudEnv) (actual : AutoscalingGroup)
    (ds : List DeleteTGAttachment) :
    ((e0.Normalize addTags).Metrics = e0.Metrics.map sortStrings ∧
     (optList (e0.Normalize addTags).Metrics).Pairwise (· ≤ ·)) ∧
    (e.Find env = .ok (some actual, ds) →
      (optList actual.Metrics).Pairwise (· ≤ ·) ∧
      (optList actual.LoadBalancers).Pairwise
        (fun x y => valueOf x.Name ≤ valueOf y.Name) ∧
      (optList actual.TargetGroups).Pairwise
        (fun x y => valueOf x.Name ≤ valueOf y.Name) ∧
      (subnetSlicesEqualIgnoreOrder (optList actual.Subnets) (optList e.Subnets) = true →
        actual.Subnets = e.Subnets)) := by
  constructor
  · constructor
    · rfl
    · cases hm : e0.Metrics with
      | none => simp [AutoscalingGroup.Normalize, hm, optList]
      | some l =>
        simp only [AutoscalingGroup.Normalize, hm, Option.map_some, optList, Option.getD]
        exact sortStrings_pairwise l
  · intro hF
    obtain ⟨g, hg, hname, hlife, hmet, ⟨lbs, hlbs⟩, ⟨tgs, htgs⟩, ⟨sub0, hsub⟩, hds⟩ :=
      AutoscalingGroup.Find_ok_some hF
    refine ⟨?_, ?_, ?_, ?_⟩
    · rcases hmet with hm | ⟨l, hm⟩
      · simp [hm, optList]
      · simp only [hm, optList, Option.getD]
        exact sortStrings_pairwise l
    · simp only [hlbs, optList, Option.getD]
      exact sortLoadBalancersByName_pairwise lbs
    · simp only [htgs, optList, Option.getD]
      exact sortTargetGroupsByName_pairwise tgs
    · intro hEq
      by_cases hc : subnetSlicesEqualIgnoreOrder (optList sub0) (optList e.Subnets) = true
      · rw [hsub, if_pos hc]
      · rw [hsub, if_neg hc] at hEq ⊢
        exact absurd hEq hc

unseal List.merge List.mergeSort in
/-- C8 witness: the theorem applied at a concrete task and environment,
the Find hypothesis discharged by computation. -/
theorem claim_C8_witness :
    (({ emptyASG with Metrics := some ["b", "a"] }.Normalize
        (fun _ t => t)).Metrics = (some ["b", "a"] : Option (List String)).map sortStrings ∧
     (optList ({ emptyASG with Metrics := some ["b", "a"] }.Normalize
        (fun _ t => t)).Metrics).Pairwise (· ≤ ·)) ∧
    ((optList testActual.Metrics).Pairwise (· ≤ ·) ∧
     (optList testActual.LoadBalancers).Pairwise
       (fun x y => valueOf x.Name ≤ valueOf y.Name) ∧
     (optList testActual.TargetGroups).Pairwise
       (fun x y => valueOf x.Name ≤ valueOf y.Name) ∧
     (subnetSlicesEqualIgnoreOrder (optList testActual.Subnets)
        (optList testASG.Subnets) = true → testActual.Subnets = testASG.Subnets)) := by
  have h := claim_C8 { emptyASG with Metrics := some ["b", "a"] } (fun _ t => t)
    testASG testEnvFound testActual [⟨"nodes", "arn:tg1"⟩]
  exact ⟨h.1, h.2 (by decide)⟩

/-- C9: Find records, for every attached target group ARN not matching a
desired TargetGroup task, a deferred deletion returned by FindDeletions,
identified by Item() = "name:arn" and flagged DeferDeletion() = true. -/
theorem claim_C9 (e : AutoscalingGroup) (env : AWSCloudEnv) (actual : AutoscalingGroup)
    (ds : List DeleteTGAttachment) (g : CloudASG)
    (hF : e.Find env = .ok (some actual, ds))
    (hg : findAutoscalingGroup env.describeResult (valueOf e.Name) = .ok (some g)) :
    ds = e.deletions ++ (g.TargetGroupARNs.filter
        (fun arn => (lookupByARN (optList e.TargetGroups) arn).isNone)).map
        (fun arn => buildDeleteAutoscalingTargetGroupAttachment
          (valueOf g.AutoScalingGroupName) arn) ∧
    AutoscalingGroup.FindDeletions { e with deletions := ds } = ds ∧
    (∀ arn ∈ g.TargetGroupARNs, (lookupByARN (optList e.TargetGroups) arn).isNone = true →
      ∃ d ∈ ds, d.Item = valueOf g.AutoScalingGroupName ++ ":" ++ arn ∧
        d.DeferDeletion = true) := by
  obtain ⟨g', hg', _, _, _, _, _, _, hds⟩ := AutoscalingGroup.Find_ok_some hF
  rw [hg'] at hg
  have hEq : g' = g := by
    injection hg with h1
    injection h1
  subst hEq
  refine ⟨hds, rfl, ?_⟩
  intro arn harn hnone
  refine ⟨buildDeleteAutoscalingTargetGroupAttachment (valueOf g'.AutoScalingGroupName) arn,
    ?_, rfl, rfl⟩
  rw [hds]
  apply List.mem_append_right
  exact List.mem_map_of_mem _ (List.mem_filter.mpr ⟨harn, by simpa using hnone⟩)

unseal List.merge List.mergeSort in
/-- C9 witness: the theorem applied at the concrete environment where the
cloud group has one stale target-group attachment. -/
theorem claim_C9_witness :
    ([⟨"nodes", "arn:tg1"⟩] : List DeleteTGAttachment) =
      testASG.deletions ++ (testCloudASG.TargetGroupARNs.filter
        (fun arn => (lookupByARN (optList testASG.TargetGroups) arn).isNone)).map
        (fun arn => buildDeleteAutoscalingTargetGroupAttachment
          (valueOf testCloudASG.AutoScalingGroupName) arn) ∧
    AutoscalingGroup.FindDeletions
      { testASG with deletions := [⟨"nodes", "arn:tg1"⟩] } = [⟨"nodes", "arn:tg1"⟩] ∧
    (∀ arn ∈ testCloudASG.TargetGroupARNs,
      (lookupByARN (optList testASG.TargetGroups) arn).isNone = true →
      ∃ d ∈ ([⟨"nodes", "arn:tg1"⟩] : List DeleteTGAttachment),
        d.Item = valueOf testCloudASG.AutoScalingGroupName ++ ":" ++ arn ∧
        d.DeferDeletion = true) :=
  claim_C9 testASG testEnvFound testActual [⟨"nodes", "arn:tg1"⟩] testCloudASG
    (by decide) (by decide)

/-! ## Claim theorems (RenderAWS update path) -/

/-- The changes value that triggers the unapplied-metrics case: a recorded
Metrics change with an empty desired Metrics list. -/
def c3Changes : AutoscalingGroup := { emptyASG with Metrics := some ["GroupMinSize"] }

/-- The log of a successful update with no recorded changes. -/
def c3Log : UpdateLog :=
  { request := { AutoScalingGroupName := some "nodes", MinSize := none, MaxSize := none
                 VPCZoneIdentifier := none, MaxInstanceLifetime := some 0
                 LaunchTemplate := none, MixedInstancesPolicy := none
                 NewInstancesProtectedFromScaleIn := none, CapacityRebalance := none }
    finalChanges := emptyASG
    updateTagsRequest := none, deleteTagsRequest := none
    attachLBRequest := none, detachLBRequest := none
    attachTGRequests := [], metricsCallMade := false
    suspendedProcesses := [], resumedProcesses := [] }

/-- C3 counterexample: with a recorded Metrics change and an empty desired
Metrics list, RenderAWS returns successfully while changes.Metrics is still
non-nil (disabling metrics is an unsupported TODO in the source). -/
theorem claim_C3_counterexample :
    (AutoscalingGroup.RenderAWSUpdate emptyASG testASG c3Changes allOkUpdateEnv).map
      (fun log => log.finalChanges.Metrics) = .ok (some ["GroupMinSize"]) ∧
    (some ["GroupMinSize"] : Option (List String)) ≠ none := ⟨by decide, by decide⟩

/-- C3 (amended): on a successful update-path return, every listed ChangeSet
field except Metrics and Granularity is nil; Metrics and Granularity are nil
provided the desired Metrics list is non-empty, and keep their recorded
change when it is empty. -/
theorem claim_C3_amended {a e changes : AutoscalingGroup} {env : AWSUpdateEnv}
    {log : UpdateLog} (h : AutoscalingGroup.RenderAWSUpdate a e changes env = .ok log) :
    (log.finalChanges.LaunchTemplate = none ∧
     log.finalChanges.MixedOnDemandAboveBase = none ∧
     log.finalChanges.MixedOnDemandBase = none ∧
     log.finalChanges.MixedSpotAllocationStrategy = none ∧
     log.finalChanges.MixedSpotInstancePools = none ∧
     log.finalChanges.MixedSpotMaxPrice = none ∧
     log.finalChanges.MixedInstanceOverrides = none ∧
     log.finalChanges.InstanceRequirements = none ∧
     log.finalChanges.MinSize = none ∧
     log.finalChanges.MaxSize = none ∧
     log.finalChanges.Subnets = none ∧
     log.finalChanges.MaxInstanceLifetime = none ∧
     log.finalChanges.Tags = none ∧
     log.finalChanges.LoadBalancers = none ∧
     log.finalChanges.TargetGroups = none ∧
     log.finalChanges.SuspendProcesses = none ∧
     log.finalChanges.InstanceProtection = none ∧
     log.finalChanges.CapacityRebalance = none) ∧
    ((optList e.Metrics).length ≠ 0 →
      log.finalChanges.Metrics = none ∧ log.finalChanges.Granularity = none) ∧
    ((optList e.Metrics).length = 0 →
      log.finalChanges.Metrics = changes.Metrics ∧
      log.finalChanges.Granularity = changes.Granularity) := by
  obtain ⟨h1, h2, h3, _, _⟩ := renderAWSUpdate_ok_master h
  exact ⟨h1, h2, h3⟩

/-- C3 witness: the amended theorem applied at a concrete successful update. -/
theorem claim_C3_amended_witness :
    (c3Log.finalChanges.MinSize = none ∧ c3Log.finalChanges.TargetGroups = none ∧
     c3Log.finalChanges.SuspendProcesses = none) ∧
    (c3Log.finalChanges.Metrics = emptyASG.Metrics ∧
     c3Log.finalChanges.Granularity = emptyASG.Granularity) := by
  have h := @claim_C3_amended emptyASG testASG emptyASG allOkUpdateEnv c3Log (by decide)
  obtain ⟨⟨_, _, _, _, _, _, _, _, hMin, _, _, _, _, _, hTGf, hSP, _, _⟩, _, h3⟩ := h
  exact ⟨⟨hMin, hTGf, hSP⟩, h3 (by decide)⟩

/-- C7 counterexample: when changes.MaxInstanceLifetime is nil, the
UpdateAutoScalingGroup request does not leave MaxInstanceLifetime unset — it
is sent as an explicit 0. -/
theorem claim_C7_counterexample :
    emptyASG.MaxInstanceLifetime = none ∧
    (AutoscalingGroup.RenderAWSUpdate emptyASG testASG emptyASG allOkUpdateEnv).map
      (fun log => log.request.MaxInstanceLifetime) = .ok (some 0) ∧
    (some 0 : Option Int) ≠ none := ⟨rfl, by decide, by decide⟩

/-- C7 (amended): on the update path, a field absent from the ChangeSet is
left unset in the UpdateAutoScalingGroup request for MinSize, MaxSize,
Subnets (VPCZoneIdentifier), InstanceProtection and CapacityRebalance; a nil
changes.MaxInstanceLifetime however sets the request field to an explicit 0
rather than leaving it unset. -/
theorem claim_C7_amended {a e changes : AutoscalingGroup} {env : AWSUpdateEnv}
    {log : UpdateLog} (h : AutoscalingGroup.RenderAWSUpdate a e changes env = .ok log) :
    (changes.MinSize = none → log.request.MinSize = none) ∧
    (changes.MaxSize = none → log.request.MaxSize = none) ∧
    (changes.Subnets = none → log.request.VPCZoneIdentifier = none) ∧
    (changes.InstanceProtection = none →
      log.request.NewInstancesProtectedFromScaleIn = none) ∧
    (changes.CapacityRebalance = none → log.request.CapacityRebalance = none) ∧
    (changes.MaxInstanceLifetime = none → log.request.MaxInstanceLifetime = some 0) :=
  (renderAWSUpdate_ok_master h).2.2.2.1

/-- C7 witness: the amended theorem applied at a concrete successful update
with an empty ChangeSet. -/
theorem claim_C7_amended_witness :
    c3Log.request.MinSize = none ∧ c3Log.request.VPCZoneIdentifier = none ∧
    c3Log.request.MaxInstanceLifetime = some 0 := by
  have h := @claim_C7_amended emptyASG testASG emptyASG allOkUpdateEnv c3Log (by decide)
  exact ⟨h.1 rfl, h.2.2.1 rfl, h.2.2.2.2.2 rfl⟩

/-! ## sliceChunks lemmas and C10 -/

theorem sliceChunks_flatten (slice : List String) (n : Nat) :
    0 < n → (sliceChunks slice n).flatten = slice := by
  induction slice, n using sliceChunks.induct with
  | case1 s n h =>
    intro hn
    unfold sliceChunks
    rw [if_pos h]
    rcases h with h | h
    · omega
    · simp [h]
  | case2 s n h ih =>
    intro hn
    unfold sliceChunks
    rw [if_neg h]
    simp only [List.flatten_cons]
    rw [ih hn, List.take_append_drop]

theorem sliceChunks_length_le (slice : List String) (n : Nat) :
    ∀ c ∈ sliceChunks slice n, c.length ≤ n := by
  induction slice, n using sliceChunks.induct with
  | case1 s n h =>
    unfold sliceChunks
    rw [if_pos h]
    intro c hc
    cases hc
  | case2 s n h ih =>
    unfold sliceChunks
    rw [if_neg h]
    intro c hc
    rcases List.mem_cons.mp hc with rfl | hc2
    · simp only [List.length_take]
      omega
    · exact ih c hc2

/-- C10: sliceChunks partitions its input for every chunk size n > 0, and
consequently each AttachLoadBalancerTargetGroups request carries at most 10
ARNs while the requests together cover the desired list exactly once. -/
theorem claim_C10 (slice : List String) (n : Nat) (hn : 0 < n)
    (a e changes : AutoscalingGroup) (env : AWSUpdateEnv) (log : UpdateLog)
    (h : AutoscalingGroup.RenderAWSUpdate a e changes env = .ok log) :
    (sliceChunks slice n).flatten = slice ∧
    (∀ c ∈ sliceChunks slice n, c.length ≤ n) ∧
    (∀ req ∈ log.attachTGRequests, req.length ≤ 10) ∧
    (changes.TargetGroups ≠ none → (optList e.TargetGroups).length > 0 →
      log.attachTGRequests.flatten = e.AutoscalingTargetGroups) := by
  have hTG := (renderAWSUpdate_ok_master h).2.2.2.2
  refine ⟨sliceChunks_flatten slice n hn, sliceChunks_length_le slice n, ?_, ?_⟩
  · intro req hreq
    rw [hTG] at hreq
    split at hreq
    · exact sliceChunks_length_le _ _ req hreq
    · cases hreq
  · intro hne hlen
    rw [hTG, if_pos ⟨hne, hlen⟩]
    exact sliceChunks_flatten _ _ (by decide)

/-- A desired task with one target group, for the C10 witness. -/
def e10 : AutoscalingGroup :=
  { emptyASG with
    Name := some "nodes"
    TargetGroups := some [{ Name := some "tg", ARN := some "arn:tg1", info := none }] }

unseal sliceChunks in
/-- C10 witness: the theorem applied at a concrete list, chunk size and a
successful update that attaches one target group chunk. -/
theorem claim_C10_witness :
    (sliceChunks ["a", "b", "c"] 2).flatten = ["a", "b", "c"] ∧
    ([["arn:tg1"]] : List (List String)).flatten = e10.AutoscalingTargetGroups := by
  have h := claim_C10 ["a", "b", "c"] 2 (by decide) emptyASG e10
    { emptyASG with TargetGroups := some [] } allOkUpdateEnv
    { c3Log with attachTGRequests := [["arn:tg1"]] } (by decide)
  exact ⟨h.1, h.2.2.2 (by decide) (by decide)⟩

/-! ## Claim C4 (create-path error classification) -/

/-- The AWS error shape RenderAWS maps to TryAgainLater. -/
def isIAMPropagationError (err : AWSApiError) : Prop :=
  err.code = "ValidationError" ∧
  strContains err.message "Invalid IAM Instance Profile name" = true

instance (err : AWSApiError) : Decidable (isIAMPropagationError err) := by
  unfold isIAMPropagationError
  infer_instance

/-- The create path reaches the CreateAutoScalingGroup call: the load
balancer names resolve and a launch template is present (with a mixed
instances policy this is implied). -/
def reachesCreateCall (e : AutoscalingGroup) (env : AWSCreateEnv) : Prop :=
  (∃ ns, resolveLBNames env.findELBByNameTag (optList e.LoadBalancers) = .ok ns) ∧
  e.LaunchTemplate ≠ none

theorem useMixedInstancesPolicy_launchTemplate {e : AutoscalingGroup}
    (h : e.UseMixedInstancesPolicy = true) : e.LaunchTemplate ≠ none := by
  unfold AutoscalingGroup.UseMixedInstancesPolicy at h
  intro hn
  rw [hn] at h
  simp at h

/-- C4: on the create path RenderAWS returns TryAgainLater exactly when the
CreateAutoScalingGroup call fails with code "ValidationError" and a message
containing "Invalid IAM Instance Profile name"; any other create failure is
returned as a generic wrapped error. -/
theorem claim_C4 (e : AutoscalingGroup) (env : AWSCreateEnv) :
    ((∃ m, e.RenderAWSCreate env = .error (.tryAgainLater m)) ↔
      (reachesCreateCall e env ∧
        ∃ err, env.createResult = .error err ∧ isIAMPropagationError err)) ∧
    (∀ err, reachesCreateCall e env → env.createResult = .error err →
      ¬ isIAMPropagationError err →
      e.RenderAWSCreate env =
        .error (.generic ("error creating AutoScalingGroup: " ++ err.message))) := by
  constructor
  · constructor
    · rintro ⟨m, hm⟩
      unfold AutoscalingGroup.RenderAWSCreate at hm
      dsimp only at hm
      split at hm
      · cases hm
      next ns hns =>
        split at hm
        next e2 heqE =>
          cases hm
          split at heqE
          · split at heqE
            · cases heqE
            · cases heqE
          · split at heqE
            · cases heqE
            · cases heqE
        next reqStep request hreq =>
          split at hm
          next err herr =>
            split at hm
            · next hpat =>
              refine ⟨⟨⟨ns, hns⟩, ?_⟩, err, herr, hpat⟩
              -- reaching the create call needed a launch template
              by_cases hUM : e.UseMixedInstancesPolicy = true
              · exact useMixedInstancesPolicy_launchTemplate hUM
              · intro hLT
                rw [if_neg (by simpa using hUM), hLT] at hreq
                cases hreq
            · cases hm
          · -- createResult ok: the remaining steps never produce TryAgainLater
            split at hm
            · cases hm
            · split at hm
              · cases hm
              · split at hm
                · split at hm
                  · cases hm
                  · cases hm
                · cases hm
    · rintro ⟨⟨⟨ns, hns⟩, hlt⟩, err, herr, hpat⟩
      obtain ⟨lt, hlt'⟩ := Option.ne_none_iff_exists'.mp hlt
      refine ⟨"waiting for the IAM Instance Profile to be propagated", ?_⟩
      unfold AutoscalingGroup.RenderAWSCreate
      rw [hns]
      dsimp only
      have hp2 : err.code = "ValidationError" ∧
          strContains err.message "Invalid IAM Instance Profile name" = true := hpat
      by_cases hUM : e.UseMixedInstancesPolicy = true
      · rw [if_pos hUM, hlt']
        dsimp only
        rw [herr]
        dsimp only
        rw [if_pos hp2]
      · rw [if_neg (by simpa using hUM), hlt']
        dsimp only
        rw [herr]
        dsimp only
        rw [if_pos hp2]
  · rintro err ⟨⟨ns, hns⟩, hlt⟩ herr hpat
    obtain ⟨lt, hlt'⟩ := Option.ne_none_iff_exists'.mp hlt
    have hp2 : ¬(err.code = "ValidationError" ∧
        strContains err.message "Invalid IAM Instance Profile name" = true) := hpat
    unfold AutoscalingGroup.RenderAWSCreate
    rw [hns]
    dsimp only
    by_cases hUM : e.UseMixedInstancesPolicy = true
    · rw [if_pos hUM, hlt']
      dsimp only
      rw [herr]
      dsimp only
      rw [if_neg hp2]
    · rw [if_neg (by simpa using hUM), hlt']
      dsimp only
      rw [herr]
      dsimp only
      rw [if_neg hp2]

/-- The concrete create-path task for the C4 witness. -/
def c4e : AutoscalingGroup :=
  { emptyASG with
    Name := some "nodes"
    LaunchTemplate := some { Name := some "lt", ID := some "lt-1" }
    SuspendProcesses := some [] }

/-- A create call failing with the IAM-propagation validation error. -/
def c4envTAL : AWSCreateEnv :=
  { findELBByNameTag := fun _ => .ok none
    createResult := .error ⟨"ValidationError", "Invalid IAM Instance Profile name xyz"⟩
    enableMetricsResult := .ok ()
    suspendResult := .ok () }

/-- A create call failing with an unrelated error. -/
def c4envGeneric : AWSCreateEnv :=
  { findELBByNameTag := fun _ => .ok none
    createResult := .error ⟨"ValidationError", "boom"⟩
    enableMetricsResult := .ok ()
    suspendResult := .ok () }

/-- C4 witness: both directions of the theorem applied at concrete
environments, each hypothesis discharged by computation. -/
theorem claim_C4_witness :
    reachesCreateCall c4e c4envTAL ∧
    c4e.RenderAWSCreate c4envGeneric =
      .error (.generic ("error creating AutoScalingGroup: " ++ "boom")) := by
  constructor
  · exact ((claim_C4 c4e c4envTAL).1.mp
      ⟨"waiting for the IAM Instance Profile to be propagated", by decide⟩).1
  · exact (claim_C4 c4e c4envGeneric).2 ⟨"ValidationError", "boom"⟩
      ⟨⟨[], rfl⟩, by decide⟩ rfl (by decide)

end Kops
